import Mathlib

/-!
Verification development for the sigrok DCC protocol decoder (`dcc/pd.py`).

The decoder's data model and operations are shallowly embedded below:
pure Python functions become Lean functions, the mutable decoder instance
becomes an explicit configuration record (`DecCfg`) plus a state record
(`DecSt`), and the annotation stream becomes an explicit list of `Ann`
values returned by each operation.  Byte values are `Nat`, microsecond
durations are `ℚ` (the Python code computes them as floats from exact
sample counts; all comparisons performed on them are order comparisons,
which agree with the exact rational values), and addresses that may be
the sentinel `-1`/`-255` are `Int`.  A Python exception that would escape
a function (an out-of-range list index) is modelled by an explicit `exn`
outcome.  Annotation side effects inside the timing classifiers
(`Variance` reports, emitted only when the experimental timing-compare
option is on) are not modelled; all theorems about the classifiers assume
the compare option off, where the Python functions emit nothing and only
their boolean result matters.
-/

namespace Dcc

/-- The 18 annotation classes of `class Ann` in the source. -/
inductive AnnClass
  | bits | bitsOther | frame | frameOther | data | dataAcc | dataDec | dataCv
  | command | info | error | variance1 | variance2
  | searchAcc | searchDec | searchCv | searchByte | searchCommand
deriving DecidableEq, Repr

/-- One emitted annotation: sample span, class, label variants. -/
structure Ann where
  left : Nat
  right : Nat
  cls : AnnClass
  labels : List String
deriving DecidableEq, Repr

/-- A decoded byte together with the 9 sample positions delimiting its
8 data bits plus the trailing edge (`[value, bitPos]` in the source). -/
structure ByteRec where
  value : Nat
  bitPos : List Nat
deriving DecidableEq, Repr

/-- Byte value at packet position `i` (`packetByte[i][0]`). -/
def bv (pkt : List ByteRec) (i : Nat) : Nat := (pkt.getD i ⟨0, []⟩).value

/-- Bit position `j` of the byte at packet position `i` (`packetByte[i][1][j]`). -/
def bp (pkt : List ByteRec) (i j : Nat) : Nat := (pkt.getD i ⟨0, []⟩).bitPos.getD j 0

/-- `put_packetbyte`: annotation spanning the byte at position `pos`. -/
def putPB (pkt : List ByteRec) (pos : Nat) (c : AnnClass) (ls : List String) : Ann :=
  ⟨bp pkt pos 0, bp pkt pos 8, c, ls⟩

/-- `put_packetbytes`: annotation spanning bytes `a` through `b`. -/
def putPBs (pkt : List ByteRec) (a b : Nat) (c : AnnClass) (ls : List String) : Ann :=
  ⟨bp pkt a 0, bp pkt b 8, c, ls⟩

/-- `putx` with explicit sample positions. -/
def putX (s e : Nat) (c : AnnClass) (ls : List String) : Ann := ⟨s, e, c, ls⟩

/-! ### String formatting helpers (Python `str`, `hex`, `format`) -/

/-- Python `hex` for non-negative integers (lowercase, `0x` prefix). -/
def pyHex (n : Nat) : String := "0x" ++ (Nat.toDigits 16 n).asString

/-- Python `hex` for `int` values (negative values get a `-0x` prefix). -/
def pyHexI (i : Int) : String := if i < 0 then "-" ++ pyHex i.natAbs else pyHex i.natAbs

/-- Python `'{0:b}'.format` for non-negative integers. -/
def pyBin (n : Nat) : String := (Nat.toDigits 2 n).asString

/-- Round `num/den` half to even (CPython float `'{:.0f}'` formatting,
modelled on the exact rational value; `den > 0`). -/
def rndHE (num den : Nat) : Nat :=
  let q := num / den
  let r := num % den
  if 2*r < den then q else if den < 2*r then q+1 else if q % 2 = 0 then q else q+1

/-- Python `'{:.0f}'.format(num/den)`. -/
def fmt0 (num den : Nat) : String := toString (rndHE num den)

/-- Python `'{:.1f}'.format(num/den)`. -/
def fmt1 (num den : Nat) : String :=
  let t := rndHE (num*10) den
  toString (t/10) ++ "." ++ toString (t%10)

/-- Zero-pad to two digits (Python `'{:02.0f}'.format` of a small integer). -/
def pad2 (n : Nat) : String := if n < 10 then "0" ++ toString n else toString n

/-- Python `'{:.2f}'.format` of a non-negative rational (modelled by
round-half-to-even at two decimals on the exact value). -/
def fmt2q (x : ℚ) : String :=
  let t := rndHE (100 * x).num.toNat (100 * x).den
  toString (t/100) ++ "." ++ pad2 (t%100)

/-- Case-fold a string (Python `str.lower`). -/
def pyLower (s : String) : String := s.toLower

/-- Is `needle` a leading segment of `hay`? -/
def leadSeg : List Char → List Char → Bool
  | [], _ => true
  | _ :: _, [] => false
  | a :: as, b :: bs => a == b && leadSeg as bs

/-- Python substring containment `needle in hay` on character lists. -/
def containsSeg (needle : List Char) : List Char → Bool
  | [] => leadSeg needle []
  | c :: t => leadSeg needle (c :: t) || containsSeg needle t

/-- Python `needle in hay` for strings. -/
def pyIn (needle hay : String) : Bool := containsSeg needle.data hay.data

/-! ### CRC (lines 187-203 of the source) -/

/-- `crc_calc`: per-byte CRC table function, XOR-folding a fixed constant
for each set bit of `data`. -/
def crc_calc (data : Nat) : Nat :=
  let r : Nat := 0
  let r := if data &&& 1 ≠ 0 then r ^^^ 0x5e else r
  let r := if data &&& 2 ≠ 0 then r ^^^ 0xbc else r
  let r := if data &&& 4 ≠ 0 then r ^^^ 0x61 else r
  let r := if data &&& 8 ≠ 0 then r ^^^ 0xc2 else r
  let r := if data &&& 0x10 ≠ 0 then r ^^^ 0x9d else r
  let r := if data &&& 0x20 ≠ 0 then r ^^^ 0x23 else r
  let r := if data &&& 0x40 ≠ 0 then r ^^^ 0x46 else r
  let r := if data &&& 0x80 ≠ 0 then r ^^^ 0x8c else r
  r

/-- `CRC`: fold `crc_calc` over packet bytes `0 .. len-3`. -/
def CRC (pkt : List ByteRec) : Nat :=
  (List.range (pkt.length - 1 - 1)).foldl (fun c i => crc_calc (bv pkt i ^^^ c)) 0

/-! ### Timing profiles and classifier (lines 59-98, 1790-1952) -/

def timingINVALID : Nat := 0
def timingNMRAdecoder : Nat := 1
def timingRCNdecoder : Nat := 2
def timingNMRAcompliance : Nat := 3
def timingRCNcomplianceT : Nat := 4
def timingRCNcomplianceS : Nat := 5
def timingExperimental : Nat := 6

def RAILCOMCUTOUTMIN : Int := 454
def RAILCOMCUTOUTMAX : Int := 488
def BIT0MAXSTRECHEDTOTAL : Int := 12000
def maxInterferingPulseWidth : Int := 4

/-- One row of the `timing` table:
half1BitMin, half1BitMax, max1BitTolerance, half0BitMin, half0BitMax,
half0BitMaxStreched (µs). -/
structure TimingRow where
  b1min : Int
  b1max : Int
  b1tolerance : Int
  b0min : Int
  b0max : Int
  b0maxStreched : Int
deriving DecidableEq, Repr

/-- Decoder configuration: the option-derived instance attributes used by
the operations below (one explicit record instead of `self`). -/
structure DecCfg where
  serviceMode : Bool
  speed14 : Bool
  AddrOffset : Int
  byte_search : Int
  dec_addr_search : Int
  acc_addr_search : Int
  cv_addr_search : Int
  command_search : String
  timingModeNo : Nat
  timingCompare : Bool
  rcnAllowStrechedZero : Bool
  minCountPreambleBits : Nat
  accuracy : ℚ
  samplerate : ℚ
  B1min : Int
  B1max : Int
  B1tolerance : Int
  B0min : Int
  B0max : Int
  B0max_streched : Int
deriving DecidableEq, Repr

/-- The `timing` table after `start()` wrote the experimental row from the
option values. -/
def timing (cfg : DecCfg) : Nat → TimingRow
  | 1 => ⟨52, 64, 6, 90, 10000, 10000⟩
  | 2 => ⟨52, 64, 6, 90, 119, 10000⟩
  | 3 => ⟨55, 61, 3, 95, 9900, 9900⟩
  | 4 => ⟨55, 61, 3, 95, 116, 9900⟩
  | 5 => ⟨56, 60, 3, 97, 114, 9898⟩
  | 6 => ⟨cfg.B1min, cfg.B1max, cfg.B1tolerance, cfg.B0min, cfg.B0max, cfg.B0max_streched⟩
  | _ => ⟨0, 0, 0, 0, 0, 0⟩

/-- `isHalf1Bit` (return value; the `Variance` annotations it can emit when
timing comparison is on are not modelled). -/
def isHalf1Bit (cfg : DecCfg) (sample : ℚ) : Bool :=
  let TM := timing cfg cfg.timingModeNo
  let TE := timing cfg timingExperimental
  let minTM := decide ((TM.b1min : ℚ) - cfg.accuracy ≤ sample)
  let maxTM := decide (sample ≤ (TM.b1max : ℚ) + cfg.accuracy)
  let minTE := if cfg.timingCompare then decide ((TE.b1min : ℚ) - cfg.accuracy ≤ sample) else minTM
  let maxTE := if cfg.timingCompare then decide (sample ≤ (TE.b1max : ℚ) + cfg.accuracy) else maxTM
  (minTM || minTE) && (maxTM || maxTE)

/-- `is1Bit` (return value; `Variance` annotations not modelled). -/
def is1Bit (cfg : DecCfg) (part1 part2 : ℚ) : Bool :=
  let TM := timing cfg cfg.timingModeNo
  let TE := timing cfg timingExperimental
  let minTM1 := decide ((TM.b1min : ℚ) - cfg.accuracy ≤ part1)
  let maxTM1 := decide (part1 ≤ (TM.b1max : ℚ) + cfg.accuracy)
  let minTM2 := decide ((TM.b1min : ℚ) - cfg.accuracy ≤ part2)
  let maxTM2 := decide (part2 ≤ (TM.b1max : ℚ) + cfg.accuracy)
  let diffTM := decide (|part1 - part2| ≤ max (TM.b1tolerance : ℚ) (2 * cfg.accuracy))
  let minTE1 := if cfg.timingCompare then decide ((TE.b1min : ℚ) - cfg.accuracy ≤ part1) else minTM1
  let maxTE1 := if cfg.timingCompare then decide (part1 ≤ (TE.b1max : ℚ) + cfg.accuracy) else maxTM1
  let minTE2 := if cfg.timingCompare then decide ((TE.b1min : ℚ) - cfg.accuracy ≤ part2) else minTM2
  let maxTE2 := if cfg.timingCompare then decide (part2 ≤ (TE.b1max : ℚ) + cfg.accuracy) else maxTM2
  let diffTE := if cfg.timingCompare then decide (|part1 - part2| ≤ max (TE.b1tolerance : ℚ) (2 * cfg.accuracy)) else diffTM
  ((minTM1 || minTE1) && (maxTM1 || maxTE1))
    && ((minTM2 || minTE2) && (maxTM2 || maxTE2))
    && (diffTM || diffTE)

/-- `withoutStrechedZero` condition of `is0Bit`. -/
def withoutStrechedZero (cfg : DecCfg) : Bool :=
  (cfg.timingModeNo = timingRCNdecoder ∧ cfg.rcnAllowStrechedZero = false)
  || (cfg.timingModeNo = timingRCNcomplianceT ∧ cfg.rcnAllowStrechedZero = false)
  || (cfg.timingModeNo = timingRCNcomplianceS ∧ cfg.rcnAllowStrechedZero = false)
  || (cfg.timingModeNo = timingExperimental ∧ cfg.rcnAllowStrechedZero = false)

/-- `withStrechedZero` condition of `is0Bit`. -/
def withStrechedZero (cfg : DecCfg) : Bool :=
  (cfg.timingModeNo = timingRCNdecoder ∧ cfg.rcnAllowStrechedZero = true)
  || (cfg.timingModeNo = timingRCNcomplianceT ∧ cfg.rcnAllowStrechedZero = true)
  || (cfg.timingModeNo = timingRCNcomplianceS ∧ cfg.rcnAllowStrechedZero = true)
  || (cfg.timingModeNo = timingExperimental ∧ cfg.rcnAllowStrechedZero = true)
  || cfg.timingModeNo = timingNMRAdecoder
  || cfg.timingModeNo = timingNMRAcompliance

/-- `is0Bit` (return value; `Variance` annotations not modelled). -/
def is0Bit (cfg : DecCfg) (part1 part2 : ℚ) : Bool :=
  let TM := timing cfg cfg.timingModeNo
  let TE := timing cfg timingExperimental
  let total := part1 + part2
  let minTM1 := decide ((TM.b0min : ℚ) - cfg.accuracy ≤ part1)
  let maxTM1 := decide (part1 ≤ (TM.b0max : ℚ) + cfg.accuracy)
  let maxStTM1 := decide (part1 ≤ (TM.b0maxStreched : ℚ) + cfg.accuracy)
  let minTM2 := decide ((TM.b0min : ℚ) - cfg.accuracy ≤ part2)
  let maxTM2 := decide (part2 ≤ (TM.b0max : ℚ) + cfg.accuracy)
  let maxStTM2 := decide (part2 ≤ (TM.b0maxStreched : ℚ) + cfg.accuracy)
  let totalTM := decide (total ≤ (BIT0MAXSTRECHEDTOTAL : ℚ) + 2 * cfg.accuracy)
  let minTE1 := if cfg.timingCompare then decide ((TE.b0min : ℚ) - cfg.accuracy ≤ part1) else minTM1
  let maxTE1 := if cfg.timingCompare then decide (part1 ≤ (TE.b0max : ℚ) + cfg.accuracy) else maxTM1
  let maxStTE1 := if cfg.timingCompare then decide (part1 ≤ (TE.b0maxStreched : ℚ) + cfg.accuracy) else maxStTM1
  let minTE2 := if cfg.timingCompare then decide ((TE.b0min : ℚ) - cfg.accuracy ≤ part2) else minTM2
  let maxTE2 := if cfg.timingCompare then decide (part2 ≤ (TE.b0max : ℚ) + cfg.accuracy) else maxTM2
  let maxStTE2 := if cfg.timingCompare then decide (part2 ≤ (TE.b0maxStreched : ℚ) + cfg.accuracy) else maxStTM2
  (withoutStrechedZero cfg
      && ((minTM1 || minTE1) && (maxTM1 || maxTE1))
      && ((minTM2 || minTE2) && (maxTM2 || maxTE2)))
  || (withStrechedZero cfg
      && ((minTM1 || minTE1) && (maxStTM1 || maxStTE1))
      && ((minTM2 || minTE2) && (maxStTM2 || maxStTE2))
      && totalTM)

/-- `isRailcomCutout`: the mutable `self.railcomCutoutPossible` flag is
passed explicitly. -/
def isRailcomCutout (cfg : DecCfg) (railcomCutoutPossible : Bool) (sample : ℚ) : Bool :=
  let TM := timing cfg cfg.timingModeNo
  decide (cfg.timingModeNo ≠ timingNMRAcompliance)
  && decide (cfg.timingModeNo ≠ timingRCNcomplianceT)
  && decide (cfg.timingModeNo ≠ timingRCNcomplianceS)
  && railcomCutoutPossible
  && decide ((RAILCOMCUTOUTMIN : ℚ) - cfg.accuracy ≤ sample)
  && decide (sample ≤ (RAILCOMCUTOUTMAX : ℚ) + 2 * ((TM.b1max : ℚ) + cfg.accuracy))

/-- `isBroken1BitAfterRailcomCutout`: the mutable `self.broken1bitPossible`
flag is passed explicitly. -/
def isBroken1BitAfterRailcomCutout (cfg : DecCfg) (broken1bitPossible : Bool) (total : ℚ) : Bool :=
  let TM := timing cfg cfg.timingModeNo
  broken1bitPossible && decide (total ≤ (TM.b1max : ℚ) + cfg.accuracy)

/-- The sample-rate check at the top of `decode()` (lines 1956-1959):
`none` means the run proceeds, `some msg` means a `SamplerateError`
carrying `msg` is raised before any edge is consumed, any annotation is
emitted, or any state changes. -/
def decodeSamplerateCheck (samplerate : Option ℚ) : Option String :=
  match samplerate with
  | none => some "Cannot decode without samplerate"
  | some r => if r ≤ 0 then some "Cannot decode with samplerate 0 or less" else none

/-! ### Packet decoder infrastructure (`handleDecodedBytes`, lines 386-1699) -/

/-- The six `commandText` variables of `handleDecodedBytes`. -/
structure CT where
  t1 : String
  t2 : String
  t3 : String
  t4 : String
  t5 : String
  t6 : String
deriving DecidableEq, Repr

def CT.empty : CT := ⟨"", "", "", "", "", ""⟩

/-- How a region of `handleDecodedBytes` finishes: `ret` is an early
`return` from the function, `exn` an escaping Python exception
(out-of-range list index), and `ok` normal fall-through carrying the
current packet position, the `validPacketFound` flag, the extracted
addresses (`-1` when absent) and the `commandText` variables. -/
inductive FEnd
  | ret
  | exn
  | ok (pos : Nat) (valid : Bool) (dec_addr acc_addr cv_addr : Int) (ct : CT)
deriving DecidableEq, Repr

/-- Annotations emitted by a region, in order, together with its ending. -/
structure FOut where
  anns : List Ann
  fin : FEnd
deriving DecidableEq, Repr

/-- Emit one annotation in front of the rest of the region's output. -/
def emit (a : Ann) (r : FOut) : FOut := ⟨a :: r.anns, r.fin⟩

/-- Normal fall-through out of the packet-family dispatch. -/
def fok (pos : Nat) (valid : Bool) (dec_addr acc_addr cv_addr : Int) (ct : CT) : FOut :=
  ⟨[], .ok pos valid dec_addr acc_addr cv_addr ct⟩

/-- `incPos` (lines 386-392): advance to the next packet position if it
exists, otherwise emit the localized missing-byte error and return from
`handleDecodedBytes` (continuation-passing form). -/
def incPos (pkt : List ByteRec) (pos : Nat) (k : Nat → FOut) : FOut :=
  if pos + 1 < pkt.length then k (pos + 1)
  else ⟨[putPB pkt pos .error
          ["Byte missing at next position: " ++ toString (pos + 2), "Error", "E"]], .ret⟩

/-- Checked Python list indexing: out of range raises (`exn`). -/
def pyIdx (l : List String) (i : Nat) (k : String → FOut) : FOut :=
  match l.get? i with
  | some s => k s
  | none => ⟨[], .exn⟩

/-- Bounded loop with an explicit accumulator, for the `for` loops of the
source that mutate `pos` and may return early. -/
def loopN {σ : Type} (n : Nat) (step : σ → (σ → FOut) → FOut) (s : σ) (k : σ → FOut) : FOut :=
  match n with
  | 0 => k s
  | m+1 => step s (fun s => loopN m step s k)

def weekday : List String :=
  ["Monday", "Tuesday", "Wednesday", "Thursday", "Friday", "Saturday", "Sunday"]

def weekday_short : List String := ["Mo", "Tu", "We", "Th", "Fr", "Sa", "Su"]

def month : List String :=
  ["?", "Jan. ", "Feb. ", "Mar. ", "Apr. ", "Mai ", "Jun. ", "Jul. ", "Aug. ",
   "Sep. ", "Oct. ", "Nov. ", "Dec. "]

/-- `processCRC` (lines 205-223), in continuation-passing form. -/
def processCRC (pkt : List ByteRec) (pos : Nat) (k : Nat → FOut) : FOut :=
  if pos + 1 ≥ pkt.length - 1 then
    emit (putPBs pkt 0 (pkt.length - 1) .error ["CRC or Checksum missing", "Error", "E"]) (k pos)
  else
    incPos pkt pos fun pos =>
    emit (putPB pkt pos .command ["CRC"]) <|
    let crcByte := bv pkt pos
    emit (putPB pkt pos .data [pyHex crcByte]) <|
    let crcCalculated := CRC pkt
    if crcByte = crcCalculated then
      emit (putPB pkt pos .frame ["CRC: OK", "OK"]) (k pos)
    else
      emit (putPBs pkt 0 (pkt.length - 2) .error ["CRC false", "Error", "E"]) <|
      emit (putPB pkt pos .frameOther
        ["CRC: " ++ pyHex crcByte ++ "<>" ++ pyHex crcCalculated,
         pyHex crcByte ++ "<>" ++ pyHex crcCalculated]) (k pos)

/-- Service-mode handling of packets with first byte 112-127
(lines 415-499). -/
def svc112 (pkt : List ByteRec) : FOut :=
  let pos := 0
  if bv pkt pos >>> 4 = 0b0111 ∧ pkt.length = 3 then
    -- [RCN-214 5] Register/Page Mode packet
    let o : String × String :=
      if (bv pkt pos >>> 3) &&& 1 = 0 then ("Verify, Register:", "v, R:")
      else ("Write, Register:", "w, R:")
    let output_long := o.1 ++ toString ((bv pkt pos &&& 0b111) + 1)
    let output_short := o.2 ++ toString ((bv pkt pos &&& 0b111) + 1)
    emit (putPB pkt pos .data [output_long, output_short]) <|
    incPos pkt pos fun pos =>
    (if bv pkt (pos-1) = 0b01111101 ∧ bv pkt pos = 1 then
      -- [RCN-216 4.2]
      emit (putPB pkt pos .data ["Register/Page Mode (outdated): Page Preset"])
     else
      emit (putPB pkt pos .data [toString (bv pkt pos)])) <|
    let ct := { CT.empty with t1 := "Register/Page Mode (outdated)" }
    emit (putPBs pkt (pos-1) pos .command [ct.t1]) <|
    fok pos true (-1) (-1) (-1) ct
  else if bv pkt pos >>> 4 = 0b0111 ∧ pkt.length = 4 then
    -- [RCN-214 2]
    let ct := { CT.empty with t1 := "Service Mode" }
    emit (putPB pkt pos .command [ct.t1, "Service"]) <|
    if (bv pkt pos >>> 2) &&& 0b11 = 0b01 then
      emit (putPB pkt pos .data ["Verify byte", "v"]) <|
      incPos pkt pos fun pos =>
      let cv_addr : Int := Int.ofNat ((bv pkt (pos-1) &&& 0b00000011) * 256 + bv pkt pos + 1)
      emit (putPB pkt pos .dataCv [toString cv_addr]) <|
      emit (putPB pkt pos .command ["CV"]) <|
      incPos pkt pos fun pos =>
      emit (putPB pkt pos .data [toString (bv pkt pos)]) <|
      emit (putPB pkt pos .command ["Value"]) <|
      fok pos true (-1) (-1) cv_addr ct
    else if (bv pkt pos >>> 2) &&& 0b11 = 0b11 then
      emit (putPB pkt pos .data ["Write byte", "w"]) <|
      incPos pkt pos fun pos =>
      let cv_addr : Int := Int.ofNat ((bv pkt (pos-1) &&& 0b00000011) * 256 + bv pkt pos + 1)
      emit (putPB pkt pos .dataCv [toString cv_addr]) <|
      emit (putPB pkt pos .command ["CV"]) <|
      incPos pkt pos fun pos =>
      emit (putPB pkt pos .command ["Value"]) <|
      emit (putPB pkt pos .data [toString (bv pkt pos)]) <|
      fok pos true (-1) (-1) cv_addr ct
    else if (bv pkt pos >>> 2) &&& 0b11 = 0b10 then
      emit (putPB pkt pos .data ["Bit manipulation", "bit"]) <|
      incPos pkt pos fun pos =>
      let cv_addr : Int := Int.ofNat ((bv pkt (pos-1) &&& 0b00000011) * 256 + bv pkt pos + 1)
      emit (putPB pkt pos .dataCv [toString cv_addr]) <|
      emit (putPB pkt pos .command ["CV"]) <|
      incPos pkt pos fun pos =>
      let o : String × String :=
        if bv pkt pos &&& 0b00010000 = 0b00010000 then ("Write, ", "w,")
        else ("Verify, ", "v,")
      let output_long := o.1 ++ toString (bv pkt pos &&& 0b00000111)
      let output_short := o.2 ++ toString (bv pkt pos &&& 0b00000111)
      let o2 : String × String :=
        if bv pkt pos &&& 0b00001000 = 0b00001000 then (output_long ++ ", 1", output_short ++ ",1")
        else (output_long ++ ", 0", output_short ++ ",0")
      emit (putPB pkt pos .data [o2.1, o2.2]) <|
      let ct := { ct with t1 := "Operation, Position, Value", t2 := "Op.,Pos,Value", t3 := "O,P,V" }
      emit (putPB pkt pos .command [ct.t1, ct.t2, ct.t3]) <|
      fok pos true (-1) (-1) cv_addr ct
    else
      emit (putPB pkt pos .data ["Reserved for future use", "Res."]) <|
      fok pos true (-1) (-1) (-1) ct
  else
    fok pos false (-1) (-1) (-1) CT.empty

/-- F-group bit labels of the 8-bit function loops (lines 717-727 and
866-874): 8 function bits starting at `f`, taken LSB first from `value`. -/
def fgroup8 (f value : Nat) : String × String :=
  (String.intercalate ", " ((List.range 8).map fun i =>
      "F" ++ toString (f + i) ++ ":" ++ toString ((value >>> i) &&& 1)),
   "F" ++ toString f ++ ":" ++
     String.intercalate "," ((List.range 8).map fun i => toString ((value >>> i) &&& 1)))

/-- F-group bit labels of the 4-bit function loops (lines 800-811 and
830-840): long form with `Fn:` prefixes, short form bits only. -/
def fgroup4 (f value : Nat) : String × String :=
  (String.intercalate ", " ((List.range 4).map fun i =>
      "F" ++ toString (f + i) ++ ":" ++ toString ((value >>> i) &&& 1)),
   String.intercalate "," ((List.range 4).map fun i => toString ((value >>> i) &&& 1)))

/-- Speed/direction label of the 126-step instructions
(lines 616-635 and 691-710). -/
def speed126Label (dec_addr : Int) (b : Nat) : String × String :=
  let o : String × String :=
    if dec_addr = 0 then ("Broadcast", "B")
    else if b >>> 7 = 1 then ("Forward", "F") else ("Reverse", "R")
  if b &&& 0b01111111 = 0b00000000 then
    ("STOP (" ++ o.1 ++ ")", "STOP (" ++ o.2 ++ ")")
  else if b &&& 0b01111111 = 0b00000001 then
    ("EMERGENCY STOP (HALT) (" ++ o.1 ++ ")", "ESTOP (" ++ o.2 ++ ")")
  else
    let speed := toString ((b &&& 0b01111111) - 1)
    (o.1 ++ " Speed: " ++ speed ++ " / 126", o.2 ++ ":" ++ speed)

/-- The F-group continuation loop of Speed, Direction, Function
(lines 712-729); a missing continuation byte breaks out of the loop. -/
def sdfLoop (pkt : List ByteRec) : List Nat → Nat → (Nat → FOut) → FOut
  | [], pos, k => k pos
  | f :: rest, pos, k =>
    if pkt.length > pos + 2 then  -- more data + checksum
      incPos pkt pos fun pos =>
      let p := fgroup8 f (bv pkt pos)
      emit (putPB pkt pos .data [p.1, p.2]) (sdfLoop pkt rest pos k)
    else k pos

/-- Multi-function instruction group 000: Decoder Control (lines 538-605). -/
def mfCmd0 (pkt : List ByteRec) (pos : Nat) (dec_addr : Int) (ct : CT) : FOut :=
  let subcmd := bv pkt pos &&& 0b00011111
  if subcmd = 0b00000 then
    if dec_addr = 0 then
      -- [RCN-211 4.1]
      let ct := { ct with t1 := "Decoder Reset packet", t2 := "Dec. Reset", t3 := "Reset" }
      emit (putPB pkt pos .command [ct.t1, ct.t2, ct.t3]) (fok pos false dec_addr (-1) (-1) ct)
    else
      -- [RCN-212 2.5.1]
      let ct := { ct with t1 := "Decoder Reset", t2 := "Dec. Reset", t3 := "Reset" }
      emit (putPB pkt pos .command [ct.t1, ct.t2, ct.t3]) (fok pos false dec_addr (-1) (-1) ct)
  else if subcmd = 0b00001 then
    -- [RCN-212 2.5.2]
    let ct := { ct with t1 := "Decoder Hard Reset", t2 := "Hard Reset", t3 := "Reset" }
    emit (putPB pkt pos .command [ct.t1, ct.t2, ct.t3]) (fok pos false dec_addr (-1) (-1) ct)
  else if subcmd &&& 0b11110 = 0b00010 then
    -- [RCN-212 2.5.3]
    let ct := { ct with t1 := "Factory Test Instruction", t2 := "Fac. Test", t3 := "Test" }
    emit (putPB pkt pos .command [ct.t1, ct.t2, ct.t3]) (fok pos true dec_addr (-1) (-1) ct)
  else if subcmd &&& 0b11110 = 0b01010 then
    -- [RCN-212 2.5.4]
    emit (putPB pkt pos .data [toString (bv pkt pos &&& 0b00000001)]) <|
    let ct := { ct with t1 := "Set Advanced Addressing (CV #29 Bit 5)",
                        t2 := "Set advanced addressing", t3 := "Set adv. addr." }
    emit (putPB pkt pos .command [ct.t1, ct.t2, ct.t3]) (fok pos false dec_addr (-1) (-1) ct)
  else if subcmd = 0b01111 then
    -- [RCN-212 2.5.5]
    let ct := { ct with t1 := "Decoder Acknowledgment Request", t2 := "Dec. Ack Req.", t3 := "Ack Req." }
    emit (putPB pkt pos .command [ct.t1, ct.t2, ct.t3]) (fok pos false dec_addr (-1) (-1) ct)
  else if subcmd &&& 0b10000 = 0b10000 then
    -- [RCN-212 2.4.1]
    let ct := { ct with t1 := "Consist Control" }
    emit (putPB pkt pos .command [ct.t1]) <|
    incPos pkt pos fun pos =>
    if subcmd &&& 0b11110 = 0b10010 then
      let value := if bv pkt (pos-1) &&& 1 = 0 then "normal" else "reverse"
      emit (putPB pkt pos .data [toString (bv pkt pos &&& 0b01111111) ++ ", dir:" ++ value]) <|
      let ct := { ct with t2 := "Set consist address", t3 := "Set" }
      emit (putPB pkt pos .command [ct.t2, ct.t3]) (fok pos false dec_addr (-1) (-1) ct)
    else
      let ct := { ct with t2 := "Reserved" }
      emit (putPB pkt pos .command [ct.t2]) (fok pos false dec_addr (-1) (-1) ct)
  else
    let ct := { ct with t1 := "Reserved" }
    emit (putPB pkt pos .command [ct.t1]) (fok pos false dec_addr (-1) (-1) ct)

/-- Tail of the Analog Function Group branch (lines 680-683). -/
def mfCmd1AnalogTail (pkt : List ByteRec) (pos : Nat) (dec_addr : Int) (ct : CT) : FOut :=
  incPos pkt pos fun pos =>
  emit (putPB pkt pos .data [toString (bv pkt pos)]) <|
  emit (putPB pkt pos .command ["Data"]) <|
  fok pos false dec_addr (-1) (-1) ct

/-- Multi-function instruction group 001: Advanced Operations
(lines 607-733). -/
def mfCmd1 (pkt : List ByteRec) (pos : Nat) (dec_addr : Int) (ct : CT) : FOut :=
  let subcmd := bv pkt pos &&& 0b00011111
  if subcmd = 0b11111 then
    -- [RCN-212 2.2.2]
    let ct := { ct with t1 := "128 Speed Step Control - Instruction", t2 := "128 Speed Step" }
    emit (putPB pkt pos .command [ct.t1, ct.t2]) <|
    incPos pkt pos fun pos =>
    let o := speed126Label dec_addr (bv pkt pos)
    emit (putPB pkt pos .data [o.1, o.2]) <|
    fok pos false dec_addr (-1) (-1) ct
  else if subcmd = 0b11110 then
    -- [RCN-212 2.2.3]
    incPos pkt pos fun pos =>
    let ct := { ct with t1 := "Special operation mode (unless received via consist address in CV#19)",
                        t2 := "Special operation mode" }
    emit (putPBs pkt (pos-1) pos .command [ct.t1, ct.t2]) <|
    let b := bv pkt pos
    let o1 :=
      if (b >>> 2) &&& 0b11 = 0b00 then "Not part of a multiple traction"
      else if (b >>> 2) &&& 0b11 = 0b10 then "Leading loco of multiple traction"
      else if (b >>> 2) &&& 0b11 = 0b01 then "Middle loco in a multiple traction"
      else "Final loco of a multiple traction"
    let o1 := o1 ++ ", shunting key:" ++ toString ((b >>> 4) &&& 1)
                 ++ ", west-bit:" ++ toString ((b >>> 5) &&& 1)
                 ++ ", east-bit:" ++ toString ((b >>> 6) &&& 1)
                 ++ ", MAN-bit:" ++ toString ((b >>> 7) &&& 1)
    emit (putPBs pkt (pos-1) pos .data [o1]) <|
    fok pos false dec_addr (-1) (-1) ct
  else if subcmd = 0b11101 then
    -- [RCN-212 2.3.8]
    let ct := { ct with t1 := "Analog Function Group" }
    emit (putPB pkt pos .command [ct.t1]) <|
    incPos pkt pos fun pos =>
    if bv pkt pos = 0b00000001 then
      let ct := { ct with t2 := "Volume control" }
      emit (putPB pkt pos .command [ct.t2]) (mfCmd1AnalogTail pkt pos dec_addr ct)
    else if 0b00010000 ≤ bv pkt pos ∧ bv pkt pos ≤ 0b00011111 then
      emit (putPB pkt pos .data [toString (bv pkt pos &&& 0b00001111)]) <|
      let ct := { ct with t2 := "Position control" }
      emit (putPB pkt pos .command [ct.t2]) (mfCmd1AnalogTail pkt pos dec_addr ct)
    else if 0b10000000 ≤ bv pkt pos ∧ bv pkt pos ≤ 0b11111111 then
      emit (putPB pkt pos .data [toString (bv pkt pos &&& 0b01111111)]) <|
      let ct := { ct with t2 := "Any control" }
      emit (putPB pkt pos .command [ct.t2]) (mfCmd1AnalogTail pkt pos dec_addr ct)
    else
      let ct := { ct with t2 := "Reserved" }
      emit (putPB pkt pos .command [ct.t2]) (mfCmd1AnalogTail pkt pos dec_addr ct)
  else if subcmd = 0b11100 then
    -- [RCN-212 2.3.7]
    let ct := { ct with t1 := "Speed, Direction, Function" }
    emit (putPB pkt pos .command [ct.t1]) <|
    incPos pkt pos fun pos =>
    let o := speed126Label dec_addr (bv pkt pos)
    emit (putPB pkt pos .data [o.1, o.2]) <|
    sdfLoop pkt [0, 8, 16, 24] pos fun pos =>
    fok pos false dec_addr (-1) (-1) ct
  else
    let ct := { ct with t1 := "Reserved" }
    emit (putPB pkt pos .command [ct.t1]) (fok pos false dec_addr (-1) (-1) ct)

/-- Multi-function instruction groups 010/011: Basic Speed and Direction
(lines 735-785). -/
def mfCmd23 (speed14 : Bool) (pkt : List ByteRec) (pos : Nat) (cmd : Nat) (dec_addr : Int)
    (ct : CT) : FOut :=
  let subcmd := bv pkt pos &&& 0b00011111
  let ct :=
    if speed14 then
      { ct with t1 := "Basis Speed and Direction Instruction 14 speed step mode (CV#29=0)",
                t2 := "Speed + Dir. 14 step", t3 := "Speed 14" }
    else
      { ct with t1 := "Basis Speed and Direction Instruction 28 speed step mode (CV#29=1)",
                t2 := "Speed + Dir. 28 step", t3 := "Speed 28" }
  emit (putPB pkt pos .command [ct.t1, ct.t2, ct.t3]) <|
  let bit5 := (subcmd &&& 0b10000) >>> 4
  let o14 : String × String :=
    if dec_addr = 0 then ("Broadcast", "B")
    else if cmd &&& 0b001 = 0b001 then ("Forward", "F") else ("Reverse", "R")
  let o28 := o14
  let speeds : (String × String) × (String × String) :=
    if subcmd &&& 0b01111 = 0b00000 then
      (("STOP (" ++ o14.1 ++ ")", "STOP (" ++ o14.2 ++ ")"),
       ("STOP (" ++ o28.1 ++ ")", "STOP (" ++ o28.2 ++ ")"))
    else if subcmd &&& 0b01111 = 0b00001 then
      (("EMERGENCY STOP (HALT) (" ++ o14.1 ++ ")", "ESTOP (" ++ o14.2 ++ ")"),
       ("EMERGENCY STOP (HALT) (" ++ o28.1 ++ ")", "ESTOP (" ++ o28.2 ++ ")"))
    else
      let s14 := toString (Int.ofNat (subcmd &&& 0b1111) - 1)
      let s28 := toString ((Int.ofNat (subcmd &&& 0b01111) - 1) * 2 - 1 + Int.ofNat bit5)
      ((o14.1 ++ " Speed: " ++ s14 ++ " / 14", o14.2 ++ ":" ++ s14),
       (o28.1 ++ " Speed: " ++ s28 ++ " / 28", o28.2 ++ ":" ++ s28))
  let o14f : String × String :=
    if 0 < dec_addr then
      (speeds.1.1 ++ ", F0=" ++ toString bit5, speeds.1.2 ++ ", F0=" ++ toString bit5)
    else speeds.1
  if speed14 then
    emit (putPB pkt pos .data [o14f.1, o14f.2]) (fok pos false dec_addr (-1) (-1) ct)
  else
    emit (putPB pkt pos .data [speeds.2.1, speeds.2.2]) (fok pos false dec_addr (-1) (-1) ct)

/-- Multi-function instruction group 100: Function Group One
(lines 787-818). -/
def mfCmd4 (speed14 : Bool) (pkt : List ByteRec) (pos : Nat) (dec_addr : Int) (ct : CT) : FOut :=
  let subcmd := bv pkt pos &&& 0b00011111
  let ct :=
    if speed14 then
      { ct with t1 := "Function Group One Instruction 14 speed step mode (CV#29=0)",
                t2 := "FG1 14 step", t3 := "FG1" }
    else
      { ct with t1 := "Function Group One Instruction 28/128 speed step mode (CV#29=1)",
                t2 := "FG1 28/128 step", t3 := "FG1" }
  emit (putPB pkt pos .command [ct.t1, ct.t2, ct.t3]) <|
  let p := fgroup4 1 subcmd
  let o : String × String :=
    if speed14 then (p.1, "F1:" ++ p.2)
    else ("F0:" ++ toString (subcmd >>> 4) ++ ", " ++ p.1,
          "F0:" ++ toString (subcmd >>> 4) ++ "," ++ p.2)
  emit (putPB pkt pos .data [o.1, o.2]) (fok pos false dec_addr (-1) (-1) ct)

/-- Multi-function instruction group 101: Function Group Two
(lines 820-841). -/
def mfCmd5 (pkt : List ByteRec) (pos : Nat) (dec_addr : Int) (ct : CT) : FOut :=
  let subcmd := bv pkt pos &&& 0b00011111
  let ct := { ct with t1 := "Function Group Two Instruction", t2 := "FG2" }
  emit (putPB pkt pos .command [ct.t1, ct.t2]) <|
  let f := if subcmd &&& 0b10000 = 0b10000 then 5 else 9
  let p := fgroup4 f subcmd
  emit (putPB pkt pos .data [p.1, "F" ++ toString f ++ ":" ++ p.2])
    (fok pos false dec_addr (-1) (-1) ct)

/-- Multi-function instruction group 110: Future Expansion
(lines 843-1017).  The `weekday`/`month` table lookups of the Model-Time
and Model-Date branches are checked Python list indexings and can raise. -/
def mfCmd6 (pkt : List ByteRec) (pos : Nat) (dec_addr : Int) (ct : CT) : FOut :=
  let subcmd := bv pkt pos &&& 0b00011111
  incPos pkt pos fun pos =>
  let ct := { ct with t1 := "Future Expansion Instruction" }
  emit (putPB pkt (pos-1) .command [ct.t1]) <|
  if subcmd ∈ [0b11111, 0b11110, 0b11100, 0b11011, 0b11010, 0b11001, 0b11000] then
    -- F13 - F68
    let value := bv pkt pos
    let f : Nat :=
      if subcmd = 0b11110 then 13
      else if subcmd = 0b11111 then 21
      else if subcmd = 0b11000 then 29
      else if subcmd = 0b11001 then 37
      else if subcmd = 0b11010 then 45
      else if subcmd = 0b11011 then 53
      else if subcmd = 0b11100 then 61
      else 0
    let p := fgroup8 f value
    emit (putPB pkt pos .data [p.1, p.2]) (fok pos false dec_addr (-1) (-1) ct)
  else if subcmd = 0b11101 then
    -- [RCN-212 2.3.5] [RCN-217 4.3.1]
    let address := bv pkt pos &&& 0b01111111
    let ct := { ct with t1 := "Binary State Control Instruction short form",
                        t2 := "Binarystate short" }
    emit (putPB pkt (pos-1) .data [ct.t1, ct.t2]) <|
    if address = 0 then
      emit (putPB pkt pos .data [toString (bv pkt pos >>> 7)]) <|
      let ct := { ct with t3 := "Broadcast F29-F127" }
      emit (putPB pkt pos .command [ct.t3]) (fok pos false dec_addr (-1) (-1) ct)
    else if 1 ≤ address ∧ address ≤ 15 then
      -- [RCN-217 4.3.1]
      let o : String × String :=
        if address = 1 then
          -- [RCN-217 5.3.1]
          (if bv pkt pos >>> 7 = 0 then ("XF=1 (Requesting the location information)", "XF=1")
           else ("XF=1", "XF=1"))
        else if address = 2 then
          -- [RCN-217 5.2.2]
          (if bv pkt pos >>> 7 = 0 then ("XF=2 (Rerail search)", "XF=2") else ("XF=2", "XF=2"))
        else ("XF=" ++ toString address ++ " (Reserved)", "XF=" ++ toString address ++ " (Res.)")
      let o : String × String :=
        if bv pkt pos >>> 7 = 0 then (o.1 ++ ":off", o.2 ++ ":off") else (o.1 ++ ":on", o.2 ++ ":on")
      emit (putPB pkt pos .data [o.1, o.2]) <|
      let ct := { ct with t3 := "RailCom" }
      emit (putPB pkt pos .command [ct.t3]) (fok pos false dec_addr (-1) (-1) ct)
    else if 16 ≤ address ∧ address ≤ 28 then
      emit (putPB pkt pos .data [pyHex (bv pkt pos) ++ "/" ++ toString (bv pkt pos)]) <|
      let ct := { ct with t3 := "Special uses" }
      emit (putPB pkt pos .command [ct.t3]) (fok pos false dec_addr (-1) (-1) ct)
    else
      let o1 := if bv pkt (pos-1) >>> 7 = 0 then "off" else "on"
      emit (putPB pkt pos .data ["F" ++ toString address ++ ":" ++ o1])
        (fok pos false dec_addr (-1) (-1) ct)
  else if subcmd = 0b00000 then
    -- [RCN-212 2.3.6]
    let ct := { ct with t1 := "Binary State Control Instruction long form",
                        t2 := "Binarystate long" }
    emit (putPB pkt (pos-1) .data ["Binary State Control Instruction long form", "Binarystate long"]) <|
    incPos pkt pos fun pos =>
    let address := bv pkt pos * 128 + (bv pkt (pos-1) &&& 0b01111111)
    let o1 := if bv pkt (pos-1) >>> 7 = 0 then "off" else "on"
    if address = 0 then
      emit (putPBs pkt (pos-1) pos .data [o1]) <|
      let ct := { ct with t3 := "Broadcast F29-F32767" }
      emit (putPBs pkt (pos-1) pos .command [ct.t3]) (fok pos false dec_addr (-1) (-1) ct)
    else if bv pkt (pos-1) &&& 0b01111111 = 0 then
      emit (putPBs pkt (pos-1) pos .error ["Use binarystate short", "Error", "E"])
        (fok pos false dec_addr (-1) (-1) ct)
    else
      emit (putPBs pkt (pos-1) pos .data ["F" ++ toString address ++ ":" ++ o1])
        (fok pos false dec_addr (-1) (-1) ct)
  else if subcmd = 0b00001 then
    -- [RCN-212 2.3.9]
    (if dec_addr ≠ 0 then
      emit (putPBs pkt 0 (pkt.length - 2) .error ["Only Broadcast allowed", "Error", "E"])
     else id) <|
    let value := bv pkt pos
    if (value >>> 6) &&& 0b11 = 0b00 then
      let ct := { ct with t1 := "Model-Time" }
      emit (putPB pkt (pos-1) .data ["Model-Time"]) <|
      emit (putPB pkt pos .command ["00MMMMMM"]) <|
      incPos pkt pos fun pos =>
      emit (putPB pkt pos .command ["WWWHHHHH"]) <|
      incPos pkt pos fun pos =>
      emit (putPB pkt pos .command ["U0BBBBBB"]) <|
      pyIdx weekday (bv pkt (pos-1) >>> 5) fun wd =>
      pyIdx weekday_short (bv pkt (pos-1) >>> 5) fun wds =>
      let output_long := wd ++ " " ++ pad2 (bv pkt (pos-1) &&& 0b00011111) ++ ":"
        ++ pad2 (bv pkt (pos-2) &&& 0b00111111) ++ " hrs, Update:" ++ toString (bv pkt pos >>> 7)
        ++ ", Acceleration:" ++ toString (bv pkt pos &&& 0b00111111)
      let output_short := wds ++ " " ++ pad2 (bv pkt (pos-1) &&& 0b00011111) ++ ":"
        ++ pad2 (bv pkt (pos-2) &&& 0b00111111) ++ ", U:" ++ toString (bv pkt pos >>> 7)
        ++ ", Acc:" ++ toString (bv pkt pos &&& 0b00111111)
      emit (putPBs pkt (pos-2) pos .data [output_long, output_short])
        (fok pos false dec_addr (-1) (-1) ct)
    else if (value >>> 6) &&& 0b11 = 0b01 then
      let ct := { ct with t1 := "Model-Date" }
      emit (putPB pkt (pos-1) .data ["Model-Date"]) <|
      emit (putPB pkt pos .command ["010TTTTT"]) <|
      incPos pkt pos fun pos =>
      emit (putPB pkt pos .command ["MMMMYYYY"]) <|
      incPos pkt pos fun pos =>
      emit (putPB pkt pos .command ["YYYYYYYY"]) <|
      pyIdx month (bv pkt (pos-1) >>> 4) fun mo =>
      let year := ((bv pkt (pos-1) &&& 0b00001111) <<< 8) + bv pkt pos
      let output_long := toString (bv pkt (pos-2) &&& 0b00011111) ++ ". " ++ mo ++ toString year
      let output_short := toString (bv pkt (pos-2) &&& 0b00011111) ++ "."
        ++ toString (bv pkt (pos-1) >>> 4) ++ "." ++ toString year
      emit (putPBs pkt (pos-2) pos .data [output_long, output_short])
        (fok pos false dec_addr (-1) (-1) ct)
    else
      emit (putPB pkt (pos-1) .data ["Reserved"]) <|
      emit (putPBs pkt (pos-2) pos .data ["Reserved", "Res."])
        (fok pos false dec_addr (-1) (-1) ct)
  else if subcmd = 0b00010 then
    -- [RCN-212 2.3.10]
    (if dec_addr ≠ 0 then
      emit (putPBs pkt 0 (pkt.length - 2) .error ["Only Broadcast allowed", "Error", "E"])
     else id) <|
    let n := pkt.length
    let ct := if n = 5 ∨ n = 6 then { ct with t1 := "Systemtime" }
      else if n = 7 ∨ n = 8 then { ct with t1 := "Systemtime (deprecated)" } else ct
    (if n = 5 ∨ n = 6 then emit (putPB pkt (pos-1) .data ["Systemtime"]) else id) <|
    (if n = 7 ∨ n = 8 then emit (putPB pkt (pos-1) .data ["Systemtime (deprecated)"]) else id) <|
    emit (putPB pkt pos .command ["MMMMMMMM"]) <|
    let value := bv pkt pos
    incPos pkt pos fun pos =>
    emit (putPB pkt pos .command ["MMMMMMMM"]) <|
    let value := value * 256 + bv pkt pos
    (if n = 5 ∨ n = 6 then
      emit (putPBs pkt (pos-1) pos .data
        [toString value ++ " ms since systemstart (" ++ fmt0 value 1000 ++ " seconds)",
         toString value ++ " ms since systemstart", toString value])
     else id) <|
    if n = 7 ∨ n = 8 then
      incPos pkt pos fun pos =>
      emit (putPB pkt pos .command ["MMMMMMMM"]) <|
      let value := value * 256 + bv pkt pos
      incPos pkt pos fun pos =>
      emit (putPB pkt pos .command ["MMMMMMMM"]) <|
      let value := value * 256 + bv pkt pos
      emit (putPBs pkt (pos-3) pos .data
        [toString value ++ " ms since systemstart (" ++ fmt0 value 60000 ++ " minutes = "
           ++ fmt1 value 3600000 ++ " hours)",
         toString value ++ " ms since systemstart", toString value])
        (fok pos false dec_addr (-1) (-1) ct)
    else fok pos false dec_addr (-1) (-1) ct
  else
    let ct := { ct with t1 := "Reserved" }
    emit (putPB pkt pos .command [ct.t1]) (fok pos false dec_addr (-1) (-1) ct)

/-- The three sequential continuation-byte blocks of XPOM write
(lines 1177-1191), labelled `Data-2` .. `Data-4`. -/
def xpomDataLoop (pkt : List ByteRec) (t4 : String) : Nat → Nat → Nat → (Nat → FOut) → FOut
  | 0, _, pos, k => k pos
  | m+1, i, pos, k =>
    if pkt.length > pos + 2 then  -- more data + checksum
      incPos pkt pos fun pos =>
      emit (putPB pkt pos .command [t4 ++ "-" ++ toString i]) <|
      emit (putPB pkt pos .data [toString (bv pkt pos)]) <|
      xpomDataLoop pkt t4 m (i+1) pos k
    else k pos

/-- Multi-function instruction group 111: CV Access (lines 1019-1193). -/
def mfCmd7 (pkt : List ByteRec) (pos : Nat) (dec_addr : Int) (ct : CT) : FOut :=
  let subcmd := bv pkt pos &&& 0b00011111
  if subcmd &&& 0b10000 = 0b10000 then
    -- Short Form [RCN-214 3] [RCN-217 4.3.2]
    let ct := { ct with t1 := "Configuration Variable Access Instruction - Short Form",
                        t2 := "CV Access Instruction short", t3 := "CV short" }
    emit (putPB pkt pos .command [ct.t1, ct.t2, ct.t3]) <|
    if subcmd &&& 0b1111 = 0b0000 then
      emit (putPB pkt pos .data ["Not available for use", "Not av."])
        (fok pos false dec_addr (-1) (-1) ct)
    else if subcmd &&& 0b1111 = 0b0010 then
      emit (putPB pkt pos .data ["Acceleration Value (CV#23)", "CV#23"]) <|
      incPos pkt pos fun pos =>
      emit (putPB pkt pos .data [toString (bv pkt pos)]) <|
      emit (putPB pkt pos .command ["Data"]) <|
      fok pos false dec_addr (-1) (-1) ct
    else if subcmd &&& 0b1111 = 0b0011 then
      emit (putPB pkt pos .data ["Deceleration Value (CV#24)", "CV#24"]) <|
      incPos pkt pos fun pos =>
      emit (putPB pkt pos .data [toString (bv pkt pos)]) <|
      emit (putPB pkt pos .command ["Data"]) <|
      fok pos false dec_addr (-1) (-1) ct
    else if subcmd &&& 0b1111 = 0b0100 then
      emit (putPB pkt pos .data ["Write CV#17 + CV#18", "w CV#17+18"]) <|
      incPos pkt pos fun pos =>
      emit (putPB pkt pos .data [toString (bv pkt pos)]) <|
      emit (putPB pkt pos .command ["CV17"]) <|
      incPos pkt pos fun pos =>
      emit (putPB pkt pos .data [toString (bv pkt pos)]) <|
      emit (putPB pkt pos .command ["CV18"]) <|
      fok pos false dec_addr (-1) (-1) ct
    else if subcmd &&& 0b1111 = 0b0101 then
      emit (putPB pkt pos .data ["Write CV#31 + CV#32", "w CV#31+32"]) <|
      incPos pkt pos fun pos =>
      emit (putPB pkt pos .data [toString (bv pkt pos)]) <|
      emit (putPB pkt pos .command ["CV31"]) <|
      incPos pkt pos fun pos =>
      emit (putPB pkt pos .data [toString (bv pkt pos)]) <|
      emit (putPB pkt pos .command ["CV32"]) <|
      fok pos false dec_addr (-1) (-1) ct
    else if subcmd &&& 0b1111 = 0b1001 then
      emit (putPB pkt pos .data
        ["Reserved (outdated: Service Mode Decoder Lock Instruction)",
         "Res. (old: Dec. Lock)", "Res."]) <|
      incPos pkt pos fun pos =>
      emit (putPB pkt pos .data [toString (bv pkt pos &&& 0b01111111)]) <|
      emit (putPB pkt pos .command ["Short address", "Addr."]) <|
      fok pos false dec_addr (-1) (-1) ct
    else
      emit (putPB pkt pos .data ["Reserved (maybe service mode packet)", "Reserved", "Res."])
        (fok pos false dec_addr (-1) (-1) ct)
  else if (pos = 1 ∧ pkt.length = 5) ∨ (pos = 2 ∧ pkt.length = 6) then
    -- [RCN-214 2] [RCN-217 5.1] long form (POM)
    let ct := { ct with t1 := "Configuration Variable Access Instruction - Long Form (POM)",
                        t2 := "CV Access Instruction long (POM)", t3 := "CV long (POM)" }
    emit (putPB pkt pos .command [ct.t1, ct.t2, ct.t3]) <|
    if (subcmd >>> 2) &&& 0b11 ∈ [0b01, 0b11, 0b10] then
      let o : String × String :=
        if (subcmd >>> 2) &&& 0b11 = 0b01 then ("Read/Verify byte", "r/v")
        else if (subcmd >>> 2) &&& 0b11 = 0b11 then ("Write byte", "w")
        else ("Bit manipulation", "Bit")
      emit (putPB pkt pos .data [o.1, o.2]) <|
      incPos pkt pos fun pos =>
      let cv_addr : Int := Int.ofNat ((bv pkt (pos-1) &&& 0b00000011) * 256 + bv pkt pos + 1)
      emit (putPB pkt pos .dataCv [toString cv_addr]) <|
      emit (putPB pkt pos .command ["CV"]) <|
      incPos pkt pos fun pos =>
      if (subcmd >>> 2) &&& 0b11 ≠ 0b10 then
        emit (putPB pkt pos .data [toString (bv pkt pos)]) <|
        emit (putPB pkt pos .command ["Value"]) <|
        fok pos false dec_addr (-1) cv_addr ct
      else
        let o : String × String :=
          if bv pkt pos &&& 0b10000 = 0b10000 then ("Write, ", "w,") else ("Verify, ", "v,")
        let output_long := o.1 ++ toString (bv pkt pos &&& 0b00000111)
        let output_short := o.2 ++ toString (bv pkt pos &&& 0b00000111)
        let o2 : String × String :=
          if bv pkt pos &&& 0b1000 = 0b1000 then (output_long ++ ", 1", output_short ++ ",1")
          else (output_long ++ ", 0", output_short ++ ",0")
        emit (putPB pkt pos .data [o2.1, o2.2]) <|
        let ct := { ct with t4 := "Operation, Position, Value", t5 := "Op.,Pos,Value", t6 := "O,P,V" }
        emit (putPB pkt pos .command [ct.t4, ct.t5, ct.t6]) <|
        fok pos false dec_addr (-1) cv_addr ct
    else
      emit (putPB pkt pos .data ["Reserved for future use", "Res."])
        (fok pos false dec_addr (-1) (-1) ct)
  else if (pos = 1 ∧ 6 ≤ pkt.length) ∨ (pos = 2 ∧ 7 ≤ pkt.length) then
    -- [RCN-214 4] [RCN-217 5.5] XPOM
    let ct := { ct with t1 := "XPOM" }
    emit (putPB pkt pos .command [ct.t1]) <|
    if (subcmd >>> 2) &&& 0b11 ∈ [0b01, 0b11, 0b10] then
      let o : String × String :=
        if (subcmd >>> 2) &&& 0b11 = 0b01 then ("Read bytes", "r")
        else if (subcmd >>> 2) &&& 0b11 = 0b11 then ("Write byte(s)", "w")
        else ("Bit write", "bit")
      let output_long := o.1 ++ ", SS:" ++ toString (bv pkt pos &&& 0b11)
      let output_short := o.2 ++ ",SS:" ++ toString (bv pkt pos &&& 0b11)
      emit (putPB pkt pos .data [output_long, output_short]) <|
      incPos pkt pos fun pos =>
      incPos pkt pos fun pos =>
      incPos pkt pos fun pos =>
      let cv_addr : Int := Int.ofNat ((bv pkt (pos-2) * 256 + bv pkt (pos-1)) * 256 + bv pkt pos + 1)
      emit (putPBs pkt (pos-2) pos .dataCv [toString cv_addr]) <|
      emit (putPBs pkt (pos-2) pos .command ["CV"]) <|
      if (subcmd >>> 2) &&& 0b11 = 0b01 then
        -- read command end
        fok pos false dec_addr (-1) cv_addr ct
      else
        -- [RCN-217 6.7]
        incPos pkt pos fun pos =>
        if (subcmd >>> 2) &&& 0b11 = 0b10 ∧ bv pkt pos >>> 4 = 0b1111 then
          -- Bit write
          let output_long := toString (bv pkt pos &&& 0b00000111)
          let output_short := toString (bv pkt pos &&& 0b00000111)
          let o2 : String × String :=
            if bv pkt pos &&& 0b1000 = 0b1000 then (output_long ++ ", 1", output_short ++ ",1")
            else (output_long ++ ", 0", output_short ++ ",0")
          emit (putPB pkt pos .data [o2.1, o2.2]) <|
          let ct := { ct with t4 := "Position, Value", t5 := "Pos, Value", t6 := "P,V" }
          emit (putPB pkt pos .command [ct.t4, ct.t5, ct.t6]) <|
          fok pos false dec_addr (-1) cv_addr ct
        else if (subcmd >>> 2) &&& 0b11 = 0b11 then
          let ct := { ct with t4 := "Data" }
          emit (putPB pkt pos .command [ct.t4 ++ "-1"]) <|
          emit (putPB pkt pos .data [toString (bv pkt pos)]) <|
          xpomDataLoop pkt ct.t4 3 2 pos fun pos =>
          fok pos false dec_addr (-1) cv_addr ct
        else
          fok pos false dec_addr (-1) cv_addr ct
    else
      emit (putPB pkt pos .data ["Reserved for future use", "Res."])
        (fok pos false dec_addr (-1) (-1) ct)
  else
    fok pos false dec_addr (-1) (-1) ct

/-- Instruction-group dispatch of the multi-function family
(lines 534-537 plus the `cmd` branches). -/
def mfDispatch (speed14 : Bool) (pkt : List ByteRec) (pos : Nat) (dec_addr : Int) (ct : CT) : FOut :=
  incPos pkt pos fun pos =>
  let cmd := (bv pkt pos &&& 0b11100000) >>> 5
  if cmd = 0b000 then mfCmd0 pkt pos dec_addr ct
  else if cmd = 0b001 then mfCmd1 pkt pos dec_addr ct
  else if cmd = 0b010 ∨ cmd = 0b011 then mfCmd23 speed14 pkt pos cmd dec_addr ct
  else if cmd = 0b100 then mfCmd4 speed14 pkt pos dec_addr ct
  else if cmd = 0b101 then mfCmd5 pkt pos dec_addr ct
  else if cmd = 0b110 then mfCmd6 pkt pos dec_addr ct
  else mfCmd7 pkt pos dec_addr ct

/-- Multi-function decoder packets (first byte 0-127 or 192-231),
lines 506-1193: address part, then instruction-group dispatch. -/
def mfBlock (speed14 : Bool) (pkt : List ByteRec) : FOut :=
  let pos := 0
  let idPacket := bv pkt 0
  if idPacket = 0 then
    let dec_addr : Int := 0
    emit (putPB pkt pos .dataDec ["Broadcast"]) <|
    let ct := { CT.empty with t1 := "Broadcast" }
    emit (putPB pkt pos .command [ct.t1]) <|
    mfDispatch speed14 pkt pos dec_addr ct
  else if 1 ≤ idPacket ∧ idPacket ≤ 127 then
    let dec_addr : Int := Int.ofNat (bv pkt pos &&& 0b01111111)
    emit (putPB pkt pos .dataDec [toString dec_addr]) <|
    let ct := { CT.empty with t1 := "Multi Function Decoder with 7 bit address",
                              t2 := "Decoder with 7 bit address", t3 := "7 bit addr." }
    emit (putPB pkt pos .command [ct.t1, ct.t2, ct.t3]) <|
    mfDispatch speed14 pkt pos dec_addr ct
  else
    -- 192 ≤ idPacket ≤ 231
    incPos pkt pos fun pos =>
    let dec_addr : Int := Int.ofNat ((bv pkt (pos-1) &&& 0b00111111) * 256 + bv pkt pos)
    emit (putPBs pkt (pos-1) pos .dataDec [toString dec_addr]) <|
    let ct := { CT.empty with t1 := "Multi Function Decoder with 14 bit address",
                              t2 := "Decoder with 14 bit address", t3 := "14 bit addr." }
    emit (putPBs pkt (pos-1) pos .command [ct.t1, ct.t2, ct.t3]) <|
    mfDispatch speed14 pkt pos dec_addr ct

/-- Accessory-address label variants (lines 1266-1267 etc.). -/
def accAddrLabels (acc_addr : Int) (decoder port : Nat) : List String :=
  [toString acc_addr ++ " (decoder:" ++ toString decoder ++ ", port:" ++ toString port ++ ")",
   toString acc_addr ++ " (" ++ toString decoder ++ "," ++ toString port ++ ")",
   toString acc_addr]

/-- The POM CV-access block of the accessory family (lines 1349-1396). -/
def accPom (pkt : List ByteRec) (pos : Nat) (acc_addr : Int) (ct : CT) : FOut :=
  let subcmd := bv pkt pos &&& 0b00011111
  if (subcmd >>> 2) &&& 0b11 ∈ [0b01, 0b11, 0b10] then
    let o : String × String :=
      if (subcmd >>> 2) &&& 0b11 = 0b01 then ("Read/Verify byte", "r/v")
      else if (subcmd >>> 2) &&& 0b11 = 0b11 then ("Write byte", "w")
      else ("Bit manipulation", "Bit")
    emit (putPB pkt pos .data [o.1, o.2]) <|
    emit (putPB pkt pos .command ["Mode"]) <|
    incPos pkt pos fun pos =>
    let cv_addr : Int := Int.ofNat ((bv pkt (pos-1) &&& 0b00000011) * 256 + bv pkt pos + 1)
    emit (putPB pkt pos .dataCv [toString cv_addr]) <|
    emit (putPB pkt pos .command ["CV"]) <|
    incPos pkt pos fun pos =>
    if (subcmd >>> 2) &&& 0b11 ≠ 0b10 then
      emit (putPB pkt pos .data [toString (bv pkt pos)]) <|
      emit (putPB pkt pos .command ["Value"]) <|
      fok pos false (-1) acc_addr cv_addr ct
    else
      let o : String × String :=
        if bv pkt pos &&& 0b10000 = 0b10000 then ("Write, ", "w,") else ("Verify, ", "v,")
      let output_long := o.1 ++ toString (bv pkt pos &&& 0b00000111)
      let output_short := o.2 ++ toString (bv pkt pos &&& 0b00000111)
      let o2 : String × String :=
        if bv pkt pos &&& 0b1000 = 0b1000 then (output_long ++ ", 1", output_short ++ ",1")
        else (output_long ++ ", 0", output_short ++ ",0")
      emit (putPB pkt pos .data [o2.1, o2.2]) <|
      let ct := { ct with t4 := "Operation, Position, Value", t5 := "Op.,Pos,Value", t6 := "O,P,V" }
      emit (putPB pkt pos .command [ct.t4, ct.t5, ct.t6]) <|
      fok pos false (-1) acc_addr cv_addr ct
  else
    emit (putPB pkt pos .data ["Reserved for future use", "Res."])
      (fok pos false (-1) acc_addr (-1) ct)

/-- Accessory decoder packets (first byte 128-191), lines 1195-1396.
`A2` inverts three address bits: `~x & 0b0111 = (x & 0b0111) ^^^ 0b0111`. -/
def accBlock (AddrOffset : Int) (pkt : List ByteRec) : FOut :=
  let pos := 0
  incPos pkt pos fun pos =>
  let A1 := bv pkt (pos-1) &&& 0b00111111
  let A2 := ((bv pkt pos >>> 4) &&& 0b0111) ^^^ 0b0111
  let A3 := (bv pkt pos &&& 0b00000110) >>> 1
  let decoder := (A2 <<< 6) + A1
  let port := A3
  let decaddr : Int := Int.ofNat (A2 <<< 8) + Int.ofNat (A1 <<< 2) + Int.ofNat A3 - 3
  let acc_addr : Int := decaddr + AddrOffset
  (if decaddr < 1 then
    emit (putPBs pkt (pos-1) pos .error ["Address < 1 not allowed", "Error", "E"])
   else id) <|
  if bv pkt pos &&& 0b10001000 = 0b00001000 then
    -- [RCN-213 2.5] [RCN-217 4.3.3]
    let ct := { CT.empty with t1 := "Railcom NOP (AccQuery)", t2 := "RC NOP" }
    emit (putPB pkt pos .data ["Railcom NOP (AccQuery)", "RC NOP"]) <|
    emit (putPB pkt (pos-1) .dataAcc [toString acc_addr]) <|
    if bv pkt pos &&& 1 = 0 then
      let ct := { ct with t4 := "Basic Accessory Decoder", t5 := "Basic Accessory",
                          t6 := "Basic Acc." }
      emit (putPB pkt (pos-1) .command [ct.t4, ct.t5, ct.t6])
        (fok pos false (-1) acc_addr (-1) ct)
    else
      let ct := { ct with t4 := "Extended Accessory Decoder", t5 := "Ext. Acc." }
      emit (putPB pkt (pos-1) .command [ct.t4, ct.t5])
        (fok pos false (-1) acc_addr (-1) ct)
  else if bv pkt pos &&& 0b10000000 = 0b10000000 then
    if pkt.length = 3 ∨ pkt.length = 4 then
      -- [RCN-213 2.1]
      let ct := { CT.empty with t1 := "Basic Accessory Decoder", t2 := "Basic Accessory",
                                t3 := "Basic Acc." }
      emit (putPB pkt (pos-1) .command [ct.t1, ct.t2, ct.t3]) <|
      if acc_addr + 3 = 2047 then
        -- [RCN-213 2.2]
        if (bv pkt pos >>> 3) &&& 1 = 0 ∧ bv pkt pos &&& 1 = 0 then
          emit (putPB pkt (pos-1) .dataAcc ["Broadcast"]) <|
          let ct := { ct with t4 := "Broadcast", t5 := "ESTOP" }
          emit (putPB pkt (pos-1) .command [ct.t4]) <|
          emit (putPB pkt pos .data [ct.t5]) <|
          fok pos false (-1) acc_addr (-1) ct
        else
          emit (putPB pkt pos .info ["Unknown (maybe NMRA-Broadcast)", "Unknown"])
            (fok pos false (-1) acc_addr (-1) ct)
      else
        if pkt.length = 3 then
          let o1 := toString (bv pkt pos &&& 1)
          let o2 := if (bv pkt pos >>> 3) &&& 1 = 0 then "off" else "on"
          emit (putPB pkt (pos-1) .dataAcc (accAddrLabels acc_addr decoder port)) <|
          emit (putPB pkt pos .data [o1 ++ ":" ++ o2]) <|
          fok pos false (-1) acc_addr (-1) ct
        else if pkt.length = 4 ∧ bv pkt pos &&& 0b1001 = 0b0000 then
          incPos pkt pos fun pos =>
          if bv pkt pos = 0 then
            emit (putPB pkt (pos-1) .dataAcc (accAddrLabels acc_addr decoder port)) <|
            let ct := { ct with t4 := "Decoder reset", t5 := "Reset" }
            emit (putPB pkt pos .command [ct.t4, ct.t5]) <|
            fok pos false (-1) acc_addr (-1) ct
          else
            emit (putPBs pkt (pos-1) pos .info ["Unknown"]) (fok pos false (-1) acc_addr (-1) ct)
        else
          emit (putPB pkt pos .info ["Unknown"]) (fok pos false (-1) acc_addr (-1) ct)
    else if pkt.length = 6 then
      incPos pkt pos fun pos =>
      if bv pkt pos >>> 4 = 0b1110 then
        -- [RCN-217 6.2]
        let ct := { CT.empty with t1 := "POM for Basic Accessory Decoder",
                                  t2 := "POM Basic Accessory", t3 := "POM Basic Acc." }
        emit (putPB pkt (pos-2) .command [ct.t1, ct.t2, ct.t3]) <|
        emit (putPB pkt (pos-1) .dataAcc (accAddrLabels acc_addr decoder port)) <|
        emit (putPB pkt (pos-1) .command ["Address", "Addr."]) <|
        accPom pkt pos acc_addr ct
      else
        emit (putPBs pkt (pos-2) pos .info ["Unknown"]) (fok pos false (-1) acc_addr (-1) CT.empty)
    else
      fok pos false (-1) acc_addr (-1) CT.empty
  else
    -- [RCN-213 2.3]
    if pkt.length = 4 then
      let ct := { CT.empty with t1 := "Extended Accessory Decoder Control Packet",
                                t2 := "Extended Accessory", t3 := "Ext. Acc." }
      emit (putPB pkt (pos-1) .command [ct.t1, ct.t2, ct.t3]) <|
      incPos pkt pos fun pos =>
      if acc_addr + 3 = 2047 then
        -- [RCN-213 2.4]
        if bv pkt pos = 0 then
          emit (putPB pkt (pos-1) .dataAcc ["Broadcast"]) <|
          let ct := { ct with t4 := "Broadcast", t5 := "ESTOP" }
          emit (putPB pkt (pos-1) .command [ct.t4]) <|
          emit (putPB pkt pos .data [ct.t5]) <|
          fok pos false (-1) acc_addr (-1) ct
        else
          emit (putPB pkt (pos-1) .data
            [pyHex (bv pkt (pos-1)) ++ "/" ++ toString (bv pkt (pos-1))]) <|
          emit (putPB pkt pos .data [pyHex (bv pkt pos) ++ "/" ++ toString (bv pkt pos)]) <|
          emit (putPBs pkt (pos-1) pos .info ["Unknown"]) <|
          fok pos false (-1) acc_addr (-1) ct
      else
        emit (putPBs pkt (pos-2) (pos-1) .dataAcc (accAddrLabels acc_addr decoder port)) <|
        emit (putPB pkt pos .data
          ["Aspect:" ++ pyHex (bv pkt pos) ++ "/" ++ toString (bv pkt pos)]) <|
        let o1 :=
          if bv pkt pos &&& 0b01111111 = 0b01111111 then "on"
          else if bv pkt pos &&& 0b01111111 = 0b00000000 then "off"
          else toString (bv pkt pos &&& 0b01111111)
        emit (putPB pkt pos .command
          ["Switching time:" ++ o1 ++ ", output:" ++ toString (bv pkt pos >>> 7)]) <|
        fok pos false (-1) acc_addr (-1) ct
    else if pkt.length = 6 then
      incPos pkt pos fun pos =>
      if bv pkt pos >>> 4 = 0b1110 then
        -- [RCN-217 6.2]
        let ct := { CT.empty with t1 := "POM for Extended Accessory Decoder",
                                  t2 := "POM Extended Accessory", t3 := "POM Extended Acc." }
        emit (putPB pkt (pos-2) .command [ct.t1, ct.t2, ct.t3]) <|
        emit (putPB pkt (pos-1) .dataAcc (accAddrLabels acc_addr decoder port)) <|
        emit (putPB pkt (pos-1) .command ["Address", "Addr."]) <|
        accPom pkt pos acc_addr ct
      else
        emit (putPBs pkt (pos-2) pos .info ["Unknown"]) (fok pos false (-1) acc_addr (-1) CT.empty)
    else
      fok pos false (-1) acc_addr (-1) CT.empty

/-- Advanced Extended packets (first byte 253), lines 1403-1426. -/
def adv253 (pkt : List ByteRec) : FOut :=
  let pos := 0
  let ct := { CT.empty with t1 := "Advanced Extended Packet", t2 := "Adv. Ext. Packet",
                            t3 := "Adv. Ext." }
  emit (putPB pkt pos .command [ct.t1, ct.t2, ct.t3]) <|
  if pkt.length ≤ 6 then
    let n := pkt.length - 1 - 1 - pos
    loopN n (fun pos k =>
      incPos pkt pos fun pos =>
      emit (putPB pkt pos .data ["?:" ++ pyHex (bv pkt pos) ++ "/" ++ toString (bv pkt pos)]) <|
      emit (putPBs pkt 1 pos .command ["S-9.1.1 in definition phase"]) <|
      k pos) pos fun pos =>
    let ct := if 0 < n then { ct with t4 := "S-9.1.1 in definition phase" } else ct
    fok pos false (-1) (-1) (-1) ct
  else
    let n := pkt.length - 2 - 1 - pos
    loopN n (fun pos k =>
      incPos pkt pos fun pos =>
      emit (putPB pkt pos .data ["?:" ++ pyHex (bv pkt pos) ++ "/" ++ toString (bv pkt pos)]) <|
      k pos) pos fun pos =>
    processCRC pkt pos fun pos =>
    let ct := { ct with t4 := "S-9.1.1 in definition phase" }
    emit (putPBs pkt 1 (pos-1) .command [ct.t4]) <|
    fok pos false (-1) (-1) (-1) ct

/-- The first command-byte dispatch chain of the DCC-A family
(lines 1435-1570), with the fall-through continuation. -/
def dccA254Chain1 (pkt : List ByteRec) (pos : Nat) (commandByte : Nat) (ct : CT)
    (k : Nat → CT → FOut) : FOut :=
  if commandByte = 0b00000000 then
    let ct := { ct with t2 := "GET_DATA_START" }
    emit (putPB pkt pos .command [ct.t2]) (k pos ct)
  else if commandByte = 0b00000001 then
    let ct := { ct with t2 := "GET_DATA_CONT" }
    emit (putPB pkt pos .command [ct.t2]) (k pos ct)
  else if commandByte = 0b00000010 then
    let ct := { ct with t2 := "SET_DATA_START" }
    emit (putPB pkt pos .command [ct.t2]) <|
    emit (putPB pkt pos .info ["currently not defined"]) (k pos ct)
  else if commandByte = 0b00000011 then
    let ct := { ct with t2 := "SET_DATA_CONT" }
    emit (putPB pkt pos .command [ct.t2]) <|
    emit (putPB pkt pos .info ["currently not defined"]) (k pos ct)
  else if 0b00000100 ≤ commandByte ∧ commandByte ≤ 0b00001111 then
    let ct := { ct with t2 := "Reserved" }
    emit (putPB pkt pos .command [ct.t2]) (k pos ct)
  else if 0b00010000 ≤ commandByte ∧ commandByte ≤ 0b10111111 then
    let ct := { ct with t2 := "Reserved" }
    emit (putPB pkt pos .command [ct.t2]) (k pos ct)
  else if 0b11000000 ≤ commandByte ∧ commandByte ≤ 0b11001111 then
    let ct := { ct with t2 := "Reserved" }
    emit (putPB pkt pos .command [ct.t2]) (k pos ct)
  else if 0b11010000 ≤ commandByte ∧ commandByte ≤ 0b11011111 then
    let ct := { ct with t2 := "Reserved" }
    emit (putX (bp pkt pos 0) (bp pkt pos 4) .command [ct.t2]) <|
    incPos pkt pos fun pos =>
    let HHHH := (commandByte &&& (0b00001111 <<< 8)) + bv pkt pos
    emit (putX (bp pkt (pos-1) 4) (bp pkt pos 8) .command
      ["12 bit manufacturer ID", "manufacturer ID"]) <|
    emit (putX (bp pkt (pos-1) 4) (bp pkt pos 8) .data [pyHex HHHH]) <|
    incPos pkt pos fun pos =>
    incPos pkt pos fun pos =>
    incPos pkt pos fun pos =>
    incPos pkt pos fun pos =>
    let UUUU := ((bv pkt (pos-3) * 256 + bv pkt (pos-2)) * 256 + bv pkt (pos-1)) * 256 + bv pkt pos
    emit (putPBs pkt (pos-3) pos .data [pyHex UUUU]) <|
    emit (putPBs pkt (pos-3) pos .command ["32 bit decoder ID", "decoder ID"]) <|
    incPos pkt pos fun pos =>
    let ct := { ct with t4 := "Subcommand" }
    emit (putPB pkt pos .command [ct.t4]) <|
    let BBBB := bv pkt pos
    if BBBB = 0b11111111 then
      let ct := { ct with t5 := "Read ShortInfo" }
      emit (putPB pkt pos .data [ct.t5]) <|
      processCRC pkt pos fun pos => k pos ct
    else if BBBB = 0b11111110 then
      let ct := { ct with t5 := "Read Block" }
      emit (putPB pkt pos .data [ct.t5]) <|
      incPos pkt pos fun pos =>
      let ct := { ct with t6 := "Data space number" }
      emit (putPB pkt pos .command [ct.t6, "Data space", "Space"]) <|
      emit (putPB pkt pos .data [toString (bv pkt pos)]) <|
      if pkt.length = 15 then
        incPos pkt pos fun pos =>
        emit (putPB pkt pos .command ["CV31"]) <|
        emit (putPB pkt pos .data [toString (bv pkt pos)]) <|
        incPos pkt pos fun pos =>
        emit (putPB pkt pos .command ["CV32"]) <|
        emit (putPB pkt pos .data [toString (bv pkt pos)]) <|
        incPos pkt pos fun pos =>
        emit (putPB pkt pos .command ["CV address"]) <|
        emit (putPB pkt pos .data [toString (bv pkt pos)]) <|
        incPos pkt pos fun pos =>
        emit (putPB pkt pos .command ["Number of CVs requested", "#CVs"]) <|
        emit (putPB pkt pos .data [toString (bv pkt pos)]) <|
        processCRC pkt pos fun pos => k pos ct
      else if pkt.length ≠ 11 then
        emit (putPBs pkt 0 (pkt.length - 1) .error
          ["Unknown Paket, length: " ++ toString pkt.length, "Error", "E"]) <|
        k pos ct
      else
        processCRC pkt pos fun pos => k pos ct
    else if BBBB = 0b11111101 then
      let ct := { ct with t5 := "Reserved (Read Background)", t6 := "Reserved" }
      emit (putPB pkt pos .data [ct.t5, ct.t6]) <|
      processCRC pkt pos fun pos => k pos ct
    else if BBBB = 0b11111100 then
      let ct := { ct with t5 := "Reserved (Write Block)", t6 := "Reserved" }
      emit (putPB pkt pos .data [ct.t5, ct.t6]) <|
      processCRC pkt pos fun pos => k pos ct
    else if BBBB = 0b11111011 then
      let ct := { ct with t5 := "Set decoder internal state", t6 := "Set state" }
      emit (putPB pkt pos .data [ct.t5, ct.t6]) <|
      incPos pkt pos fun pos =>
      emit (putPB pkt pos .command ["State"]) <|
      (if bv pkt pos = 0b11111111 then
        emit (putPB pkt pos .data ["delete changeflags"])
       else
        emit (putPB pkt pos .data ["Reserved"])) <|
      processCRC pkt pos fun pos => k pos ct
    else
      emit (putPB pkt pos .data ["Reserved"]) <|
      processCRC pkt pos fun pos => k pos ct
  else if 0b11100000 ≤ commandByte ∧ commandByte ≤ 0b11101111 then
    let ct := { ct with t2 := "LOGON_ASSIGN" }
    emit (putX (bp pkt pos 0) (bp pkt pos 4) .command [ct.t2]) <|
    incPos pkt pos fun pos =>
    let HHHH := (commandByte &&& (0b00001111 <<< 8)) + bv pkt pos
    emit (putX (bp pkt (pos-1) 4) (bp pkt pos 8) .command
      ["12 bit manufacturer ID", "manufacturer ID"]) <|
    emit (putX (bp pkt (pos-1) 4) (bp pkt pos 8) .data [pyHex HHHH]) <|
    incPos pkt pos fun pos =>
    incPos pkt pos fun pos =>
    incPos pkt pos fun pos =>
    incPos pkt pos fun pos =>
    let UUUU := ((bv pkt (pos-3) * 256 + bv pkt (pos-2)) * 256 + bv pkt (pos-1)) * 256 + bv pkt pos
    emit (putPBs pkt (pos-3) pos .data [pyHex UUUU]) <|
    emit (putPBs pkt (pos-3) pos .command ["32 bit decoder ID", "decoder ID"]) <|
    incPos pkt pos fun pos =>
    incPos pkt pos fun pos =>
    (if (bv pkt (pos-1) &&& 0b11000000) >>> 6 = 0b11 then
      emit (putX (bp pkt (pos-1) 0) (bp pkt (pos-1) 2) .command ["Reserved", "Res"])
      ∘ emit (putX (bp pkt (pos-1) 2) (bp pkt pos 8) .command ["decoder address"])
      ∘ emit (putX (bp pkt (pos-1) 2) (bp pkt pos 8) .data
          [pyHex (((bv pkt (pos-1) &&& 0b00111111) <<< 8) + bv pkt pos)])
     else
      emit (putPBs pkt (pos-1) pos .info ["ignore command"])) <|
    emit (putX (bp pkt (pos-1) 0) (bp pkt (pos-1) 2) .data
      [pyBin ((bv pkt (pos-1) &&& 0b11000000) >>> 6)]) <|
    processCRC pkt pos fun pos => k pos ct
  else
    k pos ct

/-- DCC-A packets (first byte 254), lines 1428-1603: the first dispatch
chain, then the LOGON_ENABLE/reserved chain of lines 1571-1603. -/
def dccA254 (pkt : List ByteRec) : FOut :=
  let pos := 0
  let ct := { CT.empty with t1 := "DCC-A" }
  emit (putPB pkt pos .command [ct.t1]) <|
  incPos pkt pos fun pos =>
  let commandByte := bv pkt pos
  dccA254Chain1 pkt pos commandByte ct fun pos ct =>
  if commandByte = 0b11110000 then
    let ct := { ct with t4 := "Reserved" }
    emit (putPB pkt pos .command [ct.t4]) (fok pos false (-1) (-1) (-1) ct)
  else if 0b11110001 ≤ commandByte ∧ commandByte ≤ 0b11111011 then
    let ct := { ct with t4 := "Reserved" }
    emit (putPB pkt pos .command [ct.t4]) (fok pos false (-1) (-1) (-1) ct)
  else if 0b11111100 ≤ commandByte ∧ commandByte ≤ 0b11111111 then
    let ct := { ct with t4 := "LOGON_ENABLE" }
    emit (putPB pkt pos .command [ct.t4]) <|
    let GG := commandByte &&& 0b00000011
    (if GG = 0b00 then emit (putPB pkt pos .data ["ALL: all decoders resond", "ALL"])
     else if GG = 0b01 then emit (putPB pkt pos .data ["LOCO: mobile decoders only", "LOCO"])
     else if GG = 0b10 then emit (putPB pkt pos .data ["ACC: accessory decoders only", "ACC"])
     else emit (putPB pkt pos .data ["NOW: all decoders (regardless of backoff)", "NOW"])) <|
    incPos pkt pos fun pos =>
    emit (putPB pkt pos .command ["CID MSB", "CID"]) <|
    emit (putPB pkt pos .data [pyHex (bv pkt pos)]) <|
    incPos pkt pos fun pos =>
    emit (putPB pkt pos .command ["CID LSB", "CID"]) <|
    emit (putPB pkt pos .data [pyHex (bv pkt pos)]) <|
    incPos pkt pos fun pos =>
    emit (putPB pkt pos .command ["SessionID"]) <|
    emit (putPB pkt pos .data [toString (bv pkt pos)]) <|
    fok pos false (-1) (-1) (-1) ct
  else
    fok pos false (-1) (-1) (-1) ct

/-- Idle / system command packets (first byte 255), lines 1605-1625. -/
def idle255 (pkt : List ByteRec) : FOut :=
  let pos := 0
  incPos pkt pos fun pos =>
  if bv pkt pos = 0 then
    -- [RCN-211 4.2] Idle
    let ct := { CT.empty with t1 := "Idle" }
    emit (putPBs pkt (pos-1) pos .command [ct.t1]) (fok pos false (-1) (-1) (-1) ct)
  else
    -- [RCN-211 4.3] System command
    let ct := { CT.empty with t1 := "RailComPlus®" }
    emit (putPBs pkt (pos-1) (pos-1) .command [ct.t1]) <|
    let ct :=
      if 5 ≤ pkt.length ∧ bv pkt (pos+1) = 62 ∧ bv pkt (pos+2) = 7 ∧ bv pkt (pos+3) = 64 then
        { ct with t4 := "System command (not documented) (IDNotify?)", t5 := "System command" }
      else { ct with t4 := "System command (not documented)", t5 := "System command" }
    emit (putPBs pkt pos (pkt.length - 2) .command [ct.t4, ct.t5]) <|
    fok (pos - 1) true (-1) (-1) (-1) ct

/-- The non-service-mode packet-family dispatch (lines 501-1625). -/
def normalBlock (cfg : DecCfg) (pkt : List ByteRec) : FOut :=
  let idPacket := bv pkt 0
  if idPacket ≤ 127 ∨ (192 ≤ idPacket ∧ idPacket ≤ 231) then
    -- [RCN-211 3] Multi-Function Decoder
    mfBlock cfg.speed14 pkt
  else if 128 ≤ idPacket ∧ idPacket ≤ 191 then
    -- [RCN-211 3] Accessory Decoder
    accBlock cfg.AddrOffset pkt
  else if 232 ≤ idPacket ∧ idPacket ≤ 252 then
    -- [RCN-211 3] Reserved
    let ct := { CT.empty with t1 := "Reserved" }
    emit (putPB pkt 0 .command [ct.t1]) (fok 0 false (-1) (-1) (-1) ct)
  else if idPacket = 253 then adv253 pkt
  else if idPacket = 254 then dccA254 pkt
  else if idPacket = 255 then idle255 pkt
  else fok 0 false (-1) (-1) (-1) CT.empty

/-- The packet-family decoding part of `handleDecodedBytes`
(lines 404-1625): everything between the length check and the
remaining-bytes loop; the service-mode block excludes the normal block
exactly when the first byte is 112-127. -/
def fieldsPhase (cfg : DecCfg) (pkt : List ByteRec) : FOut :=
  if cfg.serviceMode = true ∧ 112 ≤ bv pkt 0 ∧ bv pkt 0 ≤ 127 then svc112 pkt
  else normalBlock cfg pkt

/-- The remaining-bytes loop (lines 1627-1638). -/
def remainingPhase (cfg : DecCfg) (pkt : List ByteRec) (pos : Nat) (valid : Bool) : List Ann :=
  let idPacket := bv pkt 0
  (List.range' (pos+1) (pkt.length - 1 - (pos+1))).flatMap fun x =>
    [putPB pkt x .data ["?:" ++ pyHex (bv pkt x) ++ "/" ++ toString (bv pkt x)]]
    ++ (if valid = false then
          [putPB pkt x .command ["?:" ++ pyHex (bv pkt x) ++ "/" ++ toString (bv pkt x)]]
          ++ [if cfg.serviceMode = false ∧ 112 ≤ idPacket ∧ idPacket ≤ 127 then
                putPB pkt x .info ["Unknown (maybe service mode packet)", "Unknown"]
              else if cfg.serviceMode = true then
                putPB pkt x .info ["Unknown (maybe operation mode packet)", "Unknown"]
              else putPB pkt x .info ["Unknown"]]
        else [])

/-- XOR of packet bytes 0 .. len-2 (the checksum loop of lines 1645-1647). -/
def checksumOf (pkt : List ByteRec) : Nat :=
  ((pkt.map ByteRec.value).dropLast).foldl (fun a b => a ^^^ b) 0

/-- The checksum check (lines 1641-1656): only performed when the packet
position after field decoding lies before the final byte. -/
def checksumPhase (pkt : List ByteRec) (pos : Nat) : List Ann :=
  if pos + 1 < pkt.length then
    let checksum := checksumOf pkt
    if checksum = bv pkt (pkt.length - 1) then
      [putPB pkt (pkt.length - 1) .frame ["Checksum: OK", "OK"]]
    else
      [putPBs pkt 0 (pkt.length - 1) .error ["Checksum", "Error", "E"],
       putPB pkt (pkt.length - 1) .frameOther
         ["Checksum: " ++ pyHex checksum ++ "<>" ++ pyHex (bv pkt (pkt.length - 1)),
          pyHex checksum ++ "<>" ++ pyHex (bv pkt (pkt.length - 1))]]
  else
    [putPBs pkt 0 (pkt.length - 1) .error ["Checksum missing", "Error", "E"]]

/-- Was any byte of the packet equal to the byte search value
(the `byte_found` flag of lines 1662-1665)? -/
def byteFound (cfg : DecCfg) (pkt : List ByteRec) : Bool :=
  pkt.any fun b => cfg.byte_search = Int.ofNat b.value

/-- The byte-search loop (lines 1662-1671): one `SearchByte` annotation
per matching byte, provided no address/CV criterion is set or at least
one set criterion matches (logical OR). -/
def searchByteAnns (cfg : DecCfg) (pkt : List ByteRec) (dec_addr acc_addr cv_addr : Int) :
    List Ann :=
  (List.range pkt.length).filterMap fun x =>
    if cfg.byte_search = Int.ofNat (bv pkt x)
       ∧ ((cfg.dec_addr_search < 0 ∧ cfg.acc_addr_search < 0 ∧ cfg.cv_addr_search < 0)
          ∨ dec_addr = cfg.dec_addr_search
          ∨ acc_addr = cfg.acc_addr_search
          ∨ cv_addr = cfg.cv_addr_search) then
      some (putPB pkt x .searchByte
        ["BYTE:" ++ pyHexI cfg.byte_search ++ "/" ++ toString cfg.byte_search])
    else none

/-- The search filter (lines 1660-1699). -/
def searchPhase (cfg : DecCfg) (pkt : List ByteRec) (dec_addr acc_addr cv_addr : Int)
    (ct : CT) : List Ann :=
  searchByteAnns cfg pkt dec_addr acc_addr cv_addr
  ++ (if cfg.dec_addr_search = dec_addr ∧ (cfg.byte_search < 0 ∨ byteFound cfg pkt = true) then
        [putPBs pkt 0 (pkt.length - 2) .searchDec ["DECODER:" ++ toString cfg.dec_addr_search]]
      else [])
  ++ (if cfg.acc_addr_search = acc_addr ∧ (cfg.byte_search < 0 ∨ byteFound cfg pkt = true) then
        [putPBs pkt 0 (pkt.length - 2) .searchAcc ["ACCESSORY:" ++ toString cfg.acc_addr_search]]
      else [])
  ++ (if cfg.cv_addr_search = cv_addr ∧ (cfg.byte_search < 0 ∨ byteFound cfg pkt = true) then
        [putPBs pkt 0 (pkt.length - 2) .searchCv ["CV:" ++ toString cfg.cv_addr_search]]
      else [])
  ++ (if cfg.command_search ≠ ""
         ∧ (pyIn (pyLower cfg.command_search) (pyLower ct.t1) = true
            ∨ pyIn (pyLower cfg.command_search) (pyLower ct.t2) = true
            ∨ pyIn (pyLower cfg.command_search) (pyLower ct.t3) = true
            ∨ pyIn (pyLower cfg.command_search) (pyLower ct.t4) = true
            ∨ pyIn (pyLower cfg.command_search) (pyLower ct.t5) = true
            ∨ pyIn (pyLower cfg.command_search) (pyLower ct.t6) = true) then
        [putPBs pkt 0 (pkt.length - 2) .searchCommand ["COMMAND:" ++ cfg.command_search]]
      else [])

/-- `handleDecodedBytes` (lines 394-1699): the complete packet decoder.
A packet of length 0 would already make the too-short annotation raise in
Python (it indexes into the empty byte list), hence `exn`; the frame
synchronizer only ever hands over non-empty packets. -/
def handleDecodedBytes (cfg : DecCfg) (pkt : List ByteRec) : FOut :=
  if pkt.length = 0 then ⟨[], .exn⟩
  else if pkt.length < 3 then
    ⟨[putPBs pkt 0 (pkt.length - 1) .error
        ["Paket too short: " ++ toString pkt.length ++ " Byte only", "Error", "E"]], .ret⟩
  else
    match (fieldsPhase cfg pkt).fin with
    | .ret => fieldsPhase cfg pkt
    | .exn => fieldsPhase cfg pkt
    | .ok pos valid dec_addr acc_addr cv_addr ct =>
      ⟨(fieldsPhase cfg pkt).anns ++ remainingPhase cfg pkt pos valid
         ++ checksumPhase pkt pos
         ++ searchPhase cfg pkt dec_addr acc_addr cv_addr ct,
       .ok pos valid dec_addr acc_addr cv_addr ct⟩

/-! ### Frame synchronizer: the SYNCHRONIZE branch of `decode()` -/

/-- The frame-synchronizer state machine states (the `dccStatus`
strings of the source, as a closed enumeration). -/
inductive DccStatus
  | SYNCRONIZESIGNAL | WAITINGFORPREAMBLE | PREAMBLE | PREAMBLEFOUND | ADDRESSDATABYTE
deriving DecidableEq, Repr

/-- The mutable synchronizer state of the decoder instance. -/
structure DecSt where
  dccStatus : DccStatus
  dccBitCounter : Nat
  half1Counter : Nat
  decodedBytes : List ByteRec
  syncSignal : Bool
  railcomCutoutPossible : Bool
  broken1bitPossible : Bool
  lastPacketWasStop : Bool
deriving DecidableEq, Repr

/-- `setNextStatus` (lines 1702-1711). -/
def setNextStatus (st : DecSt) (s : DccStatus) : DecSt :=
  let st := { st with dccStatus := s, dccBitCounter := 0, decodedBytes := [], half1Counter := 0 }
  if s = .SYNCRONIZESIGNAL then
    { st with syncSignal := true, railcomCutoutPossible := false, broken1bitPossible := false,
              lastPacketWasStop := false }
  else st

/-- Microseconds between two edge sample numbers
(`(b − a)/samplerate·10⁶`, line 2003). -/
def usOf (cfg : DecCfg) (a b : Nat) : ℚ := ((b : ℚ) - (a : ℚ)) / cfg.samplerate * 1000000

/-- The half-'1' arm of the SYNCRONIZESIGNAL branch (lines 2055-2063):
the counter bump and its two annotations. -/
def half1Step (cfg : DecCfg) (st : DecSt) (e1 e2 : Nat) : DecSt × List Ann :=
  let st := { st with half1Counter := st.half1Counter + 1 }
  (st, [putX e1 e2 .bitsOther ["half 1 bit", "½ 1"],
        putX e1 e2 .frameOther
          ["Synchronize (" ++ toString st.half1Counter ++ "/min"
             ++ toString (cfg.minCountPreambleBits * 2) ++ ")", "Sync", "S"]])

/-- The no-valid-preamble arm (lines 2080-2090): the restart annotations
and the counter reset. -/
def zeroRestart (cfg : DecCfg) (st : DecSt) (e1 e2 e3 : Nat) : DecSt × List Ann :=
  let anns :=
    if st.half1Counter = 0 then
      [putX e1 e2 .frameOther
         ["Synchronize (wait for half 1 bits)", "Synchronize", "Sync", "S"],
       putX e2 e3 .frameOther
         ["Synchronize (wait for half 1 bits)", "Synchronize", "Sync", "S"]]
    else
      [putX e1 e3 .bitsOther ["0"],
       putX e1 e3 .frameOther
         ["Synchronize (wait for preamble) (too few half 1 bits ("
            ++ toString st.half1Counter ++ "/min"
            ++ toString (cfg.minCountPreambleBits * 2) ++ "))",
          "Synchronize", "Sync.", "S"]]
  ({ st with half1Counter := 0 }, anns)

/-- The valid-preamble arm (lines 2075-2078). -/
def preambleFoundStep (st : DecSt) : DecSt :=
  setNextStatus { st with syncSignal := false, half1Counter := 0 } .PREAMBLEFOUND

/-- The invalid/unknown-timing arm (lines 2094-2100). -/
def invalidStep (cfg : DecCfg) (st : DecSt) (e1 e2 : Nat) : DecSt × List Ann :=
  (setNextStatus st .SYNCRONIZESIGNAL,
   [putX e1 e2 .bitsOther [fmt2q (usOf cfg e1 e2) ++ "µs"],
    putX e1 e2 .frameOther ["Synchronize (wait for half 1 bits)", "Sync", "S"]])

/-- The SYNCRONIZESIGNAL branch of the decode loop (lines 2052-2100),
iterated over the remaining edge stream.  `e1`/`e2` are the current edge
pair; each loop iteration pulls further edges from the list.  The run
stops when the state leaves SYNCRONIZESIGNAL (the promoting 0-bit is then
handed to the bit processing of the same loop iteration, outside this
branch) or when the edge stream is exhausted (the real loop would block
in `wait`).  Returns the final state and the annotations emitted. -/
def syncRun (cfg : DecCfg) (st : DecSt) (e1 e2 : Nat) : List Nat → DecSt × List Ann
  | [] =>
    if st.dccStatus ≠ .SYNCRONIZESIGNAL then (st, [])
    else if isHalf1Bit cfg (usOf cfg e1 e2) then half1Step cfg st e1 e2
    else (st, [])
  | [e3] =>
    if st.dccStatus ≠ .SYNCRONIZESIGNAL then (st, [])
    else if isHalf1Bit cfg (usOf cfg e1 e2) then
      let p := half1Step cfg st e1 e2
      let r := syncRun cfg p.1 e2 e3 []
      (r.1, p.2 ++ r.2)
    else if is0Bit cfg (usOf cfg e1 e2) (usOf cfg e2 e3) then
      if cfg.minCountPreambleBits * 2 ≤ st.half1Counter then (preambleFoundStep st, [])
      else zeroRestart cfg st e1 e2 e3
    else
      let p := invalidStep cfg st e1 e2
      let r := syncRun cfg p.1 e2 e3 []
      (r.1, p.2 ++ r.2)
  | e3 :: e4 :: rest =>
    if st.dccStatus ≠ .SYNCRONIZESIGNAL then (st, [])
    else if isHalf1Bit cfg (usOf cfg e1 e2) then
      let p := half1Step cfg st e1 e2
      let r := syncRun cfg p.1 e2 e3 (e4 :: rest)
      (r.1, p.2 ++ r.2)
    else if is0Bit cfg (usOf cfg e1 e2) (usOf cfg e2 e3) then
      if cfg.minCountPreambleBits * 2 ≤ st.half1Counter then (preambleFoundStep st, [])
      else
        let p := zeroRestart cfg st e1 e2 e3
        let r := syncRun cfg p.1 e3 e4 rest
        (r.1, p.2 ++ r.2)
    else
      let p := invalidStep cfg st e1 e2
      let r := syncRun cfg p.1 e2 e3 (e4 :: rest)
      (r.1, p.2 ++ r.2)

/-- Every interval of the edge chain `e1 :: es` classifies as a
half-1 bit. -/
def chainHalf1 (cfg : DecCfg) : Nat → List Nat → Prop
  | _, [] => True
  | e1, e2 :: hs => isHalf1Bit cfg (usOf cfg e1 e2) = true ∧ chainHalf1 cfg e2 hs

instance (cfg : DecCfg) (e : Nat) (l : List Nat) : Decidable (chainHalf1 cfg e l) := by
  induction l generalizing e with
  | nil => exact .isTrue trivial
  | cons e2 hs ih => exact @instDecidableAnd _ _ _ (ih e2)

/-- Last element of `hs`, or `e` when `hs` is empty (the edge preceding
the candidate 0-bit after consuming the half-1 chain). -/
def lastD (e : Nat) (hs : List Nat) : Nat := hs.getLastD e

/-! ### Bit flipping (for the checksum round-trip claim) -/

/-- Flip bit `k` of the byte value at packet position `i`. -/
def flipPkt (pkt : List ByteRec) (i k : Nat) : List ByteRec :=
  pkt.set i ⟨(pkt.getD i ⟨0, []⟩).value ^^^ (1 <<< k), (pkt.getD i ⟨0, []⟩).bitPos⟩

/-! ### Concrete fixtures used by the witnesses and counterexamples -/

/-- A byte record whose nine bit positions start at sample `p`. -/
def mkRec (v p : Nat) : ByteRec := ⟨v, (List.range 9).map (p + ·)⟩

/-- A packet from a byte-value list, with bit spans 10 samples apart. -/
def mkPkt (vs : List Nat) : List ByteRec :=
  vs.enum.map fun q => mkRec q.2 (10 * q.1)

/-- Default configuration: NMRA decoding, no search criteria, service
mode off, 1 MHz sample rate (accuracy 1 µs), timing comparison off. -/
def cfg0 : DecCfg :=
  ⟨false, false, 0, -255, -255, -255, -255, "", 1, false, false, 10, 1, 1000000,
   52, 64, 6, 90, 119, 10000⟩

/-- `cfg0` with a byte search for 0xFF and no other criteria. -/
def cfgB : DecCfg := { cfg0 with byte_search := 255 }

/-- `cfg0` with byte search 0xFF, decoder-address search 5 and CV search
7 set simultaneously. -/
def cfg5 : DecCfg := { cfg0 with byte_search := 255, dec_addr_search := 5, cv_addr_search := 7 }

/-- `cfg0` in RCN decoding mode (stretched zero disallowed). -/
def cfgRcn : DecCfg := { cfg0 with timingModeNo := 2 }

/-- `cfg0` with zero accuracy (for the cutout-window counterexample). -/
def cfg8 : DecCfg := { cfg0 with accuracy := 0 }

/-- A valid 3-byte packet: address 1, instruction 0xE4, checksum 0xE5. -/
def pktC1 : List ByteRec := mkPkt [0x01, 0xE4, 0xE5]

/-- `pktC1` with bit 4 of byte 1 flipped (0xE4 → 0xF4). -/
def pktC1flip : List ByteRec := mkPkt [0x01, 0xF4, 0xE5]

/-- A valid packet for decoder address 5 containing the byte 0xFF. -/
def pktC5 : List ByteRec := mkPkt [0x05, 0xFF, 0xFA]

/-- An Idle packet (0xFF 0x00 0xFF), containing the byte 0xFF twice. -/
def pktC5w : List ByteRec := mkPkt [0xFF, 0x00, 0xFF]

/-- A Model-Time broadcast whose WWWHHHHH byte has weekday bits 111:
decoding indexes `weekday[7]` past the end of the 7-entry table. -/
def pktC6 : List ByteRec := mkPkt [0x00, 0xC1, 0x00, 0xE0, 0x00, 0x21]

/-- Initial synchronizer state. -/
def st0 : DecSt := ⟨.SYNCRONIZESIGNAL, 0, 0, [], true, false, false, false⟩

/-- Edges completing a run of 20 half-1 intervals of 58 µs that starts
with the pair (0, 58): samples 116, 174, …, 1160. -/
def edges20 : List Nat :=
  [116, 174, 232, 290, 348, 406, 464, 522, 580, 638,
   696, 754, 812, 870, 928, 986, 1044, 1102, 1160]

/-- `cfg0` with the minimum preamble-bit count set to 1 (for the
synchronizer counterexample). -/
def cfgM : DecCfg := { cfg0 with minCountPreambleBits := 1 }

/-- Modelled from the claim's words (for comparison with
`isRailcomCutout`): the cutout window stated as 453-488 µs nominal. -/
def railcomCutoutClaimWindow (cfg : DecCfg) (sample : ℚ) : Prop :=
  (453 : ℚ) - cfg.accuracy ≤ sample
    ∧ sample ≤ (488 : ℚ) + 2 * (((timing cfg cfg.timingModeNo).b1max : ℚ) + cfg.accuracy)

/-! ## Claim theorems -/

/-- C3: with timing comparison off, `is1Bit p1 p2` returns true iff both
half-period durations lie within `[half1Min − accuracy, half1Max + accuracy]`
of the active profile and `|p1 − p2| ≤ max half1Tolerance (2·accuracy)`. -/
theorem C3_is1Bit_iff (cfg : DecCfg) (p1 p2 : ℚ) (hc : cfg.timingCompare = false) :
    is1Bit cfg p1 p2 = true ↔
      (((timing cfg cfg.timingModeNo).b1min : ℚ) - cfg.accuracy ≤ p1
        ∧ p1 ≤ ((timing cfg cfg.timingModeNo).b1max : ℚ) + cfg.accuracy
        ∧ ((timing cfg cfg.timingModeNo).b1min : ℚ) - cfg.accuracy ≤ p2
        ∧ p2 ≤ ((timing cfg cfg.timingModeNo).b1max : ℚ) + cfg.accuracy
        ∧ |p1 - p2| ≤ max ((timing cfg cfg.timingModeNo).b1tolerance : ℚ) (2 * cfg.accuracy)) := by
  simp only [is1Bit, hc, Bool.false_eq_true, if_false, Bool.or_self, Bool.and_eq_true,
    decide_eq_true_eq]
  tauto

/-- C3 witness at the NMRA-decoding configuration with both halves 58 µs. -/
theorem C3_is1Bit_iff_witness :
    cfg0.timingCompare = false
    ∧ (is1Bit cfg0 58 58 = true ↔
        (((timing cfg0 cfg0.timingModeNo).b1min : ℚ) - cfg0.accuracy ≤ 58
          ∧ (58 : ℚ) ≤ ((timing cfg0 cfg0.timingModeNo).b1max : ℚ) + cfg0.accuracy
          ∧ ((timing cfg0 cfg0.timingModeNo).b1min : ℚ) - cfg0.accuracy ≤ 58
          ∧ (58 : ℚ) ≤ ((timing cfg0 cfg0.timingModeNo).b1max : ℚ) + cfg0.accuracy
          ∧ |(58 : ℚ) - 58| ≤ max ((timing cfg0 cfg0.timingModeNo).b1tolerance : ℚ)
              (2 * cfg0.accuracy))) :=
  ⟨rfl, C3_is1Bit_iff cfg0 58 58 rfl⟩

/-- C4: with timing comparison off, (a) in a mode where stretched zero is
disallowed, any pair of halves within `[half0Min − accuracy,
half0Max + accuracy]` classifies as a 0-bit; (b) whenever `is0Bit` accepts
a pair in which either half exceeds `half0Max + accuracy` (so it lies only
within the stretched range), stretched zero is permitted for the active
mode and `p1 + p2 ≤ 12000 + 2·accuracy` µs. -/
theorem C4_is0Bit_cases (cfg : DecCfg) (p1 p2 : ℚ) (hc : cfg.timingCompare = false) :
    ((withoutStrechedZero cfg = true
        ∧ ((timing cfg cfg.timingModeNo).b0min : ℚ) - cfg.accuracy ≤ p1
        ∧ p1 ≤ ((timing cfg cfg.timingModeNo).b0max : ℚ) + cfg.accuracy
        ∧ ((timing cfg cfg.timingModeNo).b0min : ℚ) - cfg.accuracy ≤ p2
        ∧ p2 ≤ ((timing cfg cfg.timingModeNo).b0max : ℚ) + cfg.accuracy) →
      is0Bit cfg p1 p2 = true)
    ∧ (is0Bit cfg p1 p2 = true →
        (((timing cfg cfg.timingModeNo).b0max : ℚ) + cfg.accuracy < p1
          ∨ ((timing cfg cfg.timingModeNo).b0max : ℚ) + cfg.accuracy < p2) →
        withStrechedZero cfg = true
          ∧ p1 + p2 ≤ (BIT0MAXSTRECHEDTOTAL : ℚ) + 2 * cfg.accuracy) := by
  simp only [is0Bit, hc, Bool.false_eq_true, if_false, Bool.or_self, Bool.and_eq_true,
    Bool.or_eq_true, decide_eq_true_eq]
  constructor
  · intro h
    tauto
  · intro h hlt
    have k1 : ¬ (p1 ≤ ((timing cfg cfg.timingModeNo).b0max : ℚ) + cfg.accuracy)
        ∨ ¬ (p2 ≤ ((timing cfg cfg.timingModeNo).b0max : ℚ) + cfg.accuracy) := by
      rcases hlt with hl | hl
      · exact Or.inl (not_le.mpr hl)
      · exact Or.inr (not_le.mpr hl)
    tauto

/-- C4 witness: RCN decoding with stretched zero disallowed, both halves
100 µs. -/
theorem C4_is0Bit_cases_witness :
    cfgRcn.timingCompare = false
    ∧ ((withoutStrechedZero cfgRcn = true
          ∧ ((timing cfgRcn cfgRcn.timingModeNo).b0min : ℚ) - cfgRcn.accuracy ≤ 100
          ∧ (100 : ℚ) ≤ ((timing cfgRcn cfgRcn.timingModeNo).b0max : ℚ) + cfgRcn.accuracy
          ∧ ((timing cfgRcn cfgRcn.timingModeNo).b0min : ℚ) - cfgRcn.accuracy ≤ 100
          ∧ (100 : ℚ) ≤ ((timing cfgRcn cfgRcn.timingModeNo).b0max : ℚ) + cfgRcn.accuracy) →
        is0Bit cfgRcn 100 100 = true) :=
  ⟨rfl, (C4_is0Bit_cases cfgRcn 100 100 rfl).1⟩

/-- C8 (amended): `isRailcomCutout total` returns true iff the timing mode
is not a compliance-testing mode, the cutout-eligibility flag is armed,
and `total` lies within `[454 − accuracy, 488 + 2·(half1Max + accuracy)]`
(the source's nominal window is 454-488 µs, not 453-488 µs). -/
theorem C8_isRailcomCutout_iff (cfg : DecCfg) (poss : Bool) (total : ℚ) :
    isRailcomCutout cfg poss total = true ↔
      (cfg.timingModeNo ≠ timingNMRAcompliance
        ∧ cfg.timingModeNo ≠ timingRCNcomplianceT
        ∧ cfg.timingModeNo ≠ timingRCNcomplianceS
        ∧ poss = true
        ∧ (RAILCOMCUTOUTMIN : ℚ) - cfg.accuracy ≤ total
        ∧ total ≤ (RAILCOMCUTOUTMAX : ℚ)
            + 2 * (((timing cfg cfg.timingModeNo).b1max : ℚ) + cfg.accuracy)) := by
  simp [isRailcomCutout, Bool.and_eq_true, decide_eq_true_eq, and_assoc]

/-- C8 counterexample: at zero accuracy in NMRA decoding mode with the
cutout armed, a total of 453 µs lies inside the claim's stated
453-488 µs window but `isRailcomCutout` rejects it (the code's lower
bound is 454). -/
theorem C8_counterexample :
    isRailcomCutout cfg8 true 453 = false
    ∧ railcomCutoutClaimWindow cfg8 453
    ∧ cfg8.timingModeNo = timingNMRAdecoder := by
  have hmin : decide ((RAILCOMCUTOUTMIN : ℚ) - cfg8.accuracy ≤ (453 : ℚ)) = false := by
    rw [decide_eq_false_iff_not]
    norm_num [cfg8, cfg0, RAILCOMCUTOUTMIN]
  refine ⟨?_, by norm_num [railcomCutoutClaimWindow, cfg8, cfg0, timing], rfl⟩
  simp only [isRailcomCutout, hmin, Bool.and_false, Bool.false_and]

/-- Pull one conditional XOR step of `crc_calc` out of the accumulator. -/
theorem crc_step (p : Prop) [Decidable p] (a c : Nat) :
    (if p then a ^^^ c else a) = a ^^^ (if p then c else 0) := by
  split <;> simp

/-- `crc_calc` as an XOR of one conditional constant per bit. -/
theorem crc_calc_eq (x : Nat) :
    crc_calc x =
      (if x &&& 1 ≠ 0 then 0x5e else 0) ^^^ (if x &&& 2 ≠ 0 then 0xbc else 0)
      ^^^ (if x &&& 4 ≠ 0 then 0x61 else 0) ^^^ (if x &&& 8 ≠ 0 then 0xc2 else 0)
      ^^^ (if x &&& 0x10 ≠ 0 then 0x9d else 0) ^^^ (if x &&& 0x20 ≠ 0 then 0x23 else 0)
      ^^^ (if x &&& 0x40 ≠ 0 then 0x46 else 0) ^^^ (if x &&& 0x80 ≠ 0 then 0x8c else 0) := by
  simp only [crc_calc, crc_step, Nat.zero_xor]

/-- A conditional constant keyed to a single mask bit distributes over XOR
of its argument. -/
theorem termLin (a b m c : Nat) (hm : ∀ x, x &&& m = 0 ∨ x &&& m = m) (hm0 : m ≠ 0) :
    (if (a ^^^ b) &&& m ≠ 0 then c else 0)
      = (if a &&& m ≠ 0 then c else 0) ^^^ (if b &&& m ≠ 0 then c else 0) := by
  rw [Nat.and_xor_distrib_right]
  rcases hm a with h1 | h1 <;> rcases hm b with h2 | h2 <;> simp [h1, h2, hm0, Nat.xor_self]

/-- Masking with a single power of two yields 0 or the mask itself. -/
theorem andSingle (i x : Nat) : x &&& 2^i = 0 ∨ x &&& 2^i = 2^i := by
  rw [Nat.and_two_pow]; cases x.testBit i <;> simp

/-- `crc_calc` distributes over XOR (for all inputs). -/
theorem crc_calc_xor (a b : Nat) : crc_calc (a ^^^ b) = crc_calc a ^^^ crc_calc b := by
  have h1 : ∀ x : Nat, x &&& 1 = 0 ∨ x &&& 1 = 1 := fun x => by
    rw [show (1:Nat) = 2^0 from rfl]; exact andSingle 0 x
  have h2 : ∀ x : Nat, x &&& 2 = 0 ∨ x &&& 2 = 2 := fun x => by
    rw [show (2:Nat) = 2^1 from rfl]; exact andSingle 1 x
  have h4 : ∀ x : Nat, x &&& 4 = 0 ∨ x &&& 4 = 4 := fun x => by
    rw [show (4:Nat) = 2^2 from rfl]; exact andSingle 2 x
  have h8 : ∀ x : Nat, x &&& 8 = 0 ∨ x &&& 8 = 8 := fun x => by
    rw [show (8:Nat) = 2^3 from rfl]; exact andSingle 3 x
  have h16 : ∀ x : Nat, x &&& 16 = 0 ∨ x &&& 16 = 16 := fun x => by
    rw [show (16:Nat) = 2^4 from rfl]; exact andSingle 4 x
  have h32 : ∀ x : Nat, x &&& 32 = 0 ∨ x &&& 32 = 32 := fun x => by
    rw [show (32:Nat) = 2^5 from rfl]; exact andSingle 5 x
  have h64 : ∀ x : Nat, x &&& 64 = 0 ∨ x &&& 64 = 64 := fun x => by
    rw [show (64:Nat) = 2^6 from rfl]; exact andSingle 6 x
  have h128 : ∀ x : Nat, x &&& 128 = 0 ∨ x &&& 128 = 128 := fun x => by
    rw [show (128:Nat) = 2^7 from rfl]; exact andSingle 7 x
  rw [crc_calc_eq (a ^^^ b), crc_calc_eq a, crc_calc_eq b,
    termLin a b 1 0x5e h1 (by norm_num), termLin a b 2 0xbc h2 (by norm_num),
    termLin a b 4 0x61 h4 (by norm_num), termLin a b 8 0xc2 h8 (by norm_num),
    termLin a b 16 0x9d h16 (by norm_num), termLin a b 32 0x23 h32 (by norm_num),
    termLin a b 64 0x46 h64 (by norm_num), termLin a b 128 0x8c h128 (by norm_num)]
  ac_rfl

/-- The `crc_calc` result is always a byte value. -/
theorem crc_calc_lt_256 (a : Nat) : crc_calc a < 256 := by
  have hT : ∀ (p : Prop) [Decidable p] (c : Nat), c < 256 → (if p then c else 0) < 256 := by
    intro p _ c hc; split <;> omega
  have hxor : ∀ x y : Nat, x < 256 → y < 256 → x ^^^ y < 256 := fun _ _ hx hy =>
    Nat.xor_lt_two_pow (n := 8) hx hy
  rw [crc_calc_eq a]
  exact hxor _ _ (hxor _ _ (hxor _ _ (hxor _ _ (hxor _ _ (hxor _ _ (hxor _ _
    (hT _ _ (by norm_num)) (hT _ _ (by norm_num))) (hT _ _ (by norm_num)))
    (hT _ _ (by norm_num))) (hT _ _ (by norm_num))) (hT _ _ (by norm_num)))
    (hT _ _ (by norm_num))) (hT _ _ (by norm_num))

/-- C10: `crc_calc` is linear over GF(2) on byte values: it distributes
over XOR, maps 0 to 0, and always yields a byte value. -/
theorem C10_crc_calc_linear :
    ∀ a, a < 256 → ∀ b, b < 256 →
      (crc_calc (a ^^^ b) = crc_calc a ^^^ crc_calc b
        ∧ crc_calc 0 = 0 ∧ crc_calc a < 256) :=
  fun a _ b _ => ⟨crc_calc_xor a b, by decide, crc_calc_lt_256 a⟩

/-- C10 witness at bytes 3 and 5. -/
theorem C10_crc_calc_linear_witness :
    3 < 256 ∧ 5 < 256 ∧ crc_calc (3 ^^^ 5) = crc_calc 3 ^^^ crc_calc 5 :=
  ⟨by decide, by decide, (C10_crc_calc_linear 3 (by decide) 5 (by decide)).1⟩

/-- C6: refuted — `handleDecodedBytes` can raise.  On the Model-Time
broadcast `[0x00, 0xC1, 0x00, 0xE0, 0x00, 0x21]` the weekday-table lookup
`weekday[0xE0 >> 5] = weekday[7]` is past the end of the 7-entry table, so
the decoder raises IndexError instead of finishing (the packet-byte
accesses themselves are indeed all guarded by `incPos`). -/
theorem C6_handleDecodedBytes_raises :
    (handleDecodedBytes cfg0 pktC6).fin = .exn
    ∧ weekday.length = 7 ∧ bv pktC6 3 >>> 5 = 7 := by
  refine ⟨by decide, by decide, by decide⟩

/-- C9: the sample-rate check of `decode()` raises exactly on a missing or
non-positive sample rate, before any edge is consumed; but with a positive
sample rate the run can still raise — the packet decoder, reached from the
decode loop with no exception handler in between, raises on `pktC6`. -/
theorem C9_samplerate_check :
    decodeSamplerateCheck none = some "Cannot decode without samplerate"
    ∧ decodeSamplerateCheck (some 0) = some "Cannot decode with samplerate 0 or less"
    ∧ (∀ r : ℚ, 0 < r → decodeSamplerateCheck (some r) = none)
    ∧ (handleDecodedBytes cfg0 pktC6).fin = .exn := by
  refine ⟨rfl, by simp [decodeSamplerateCheck], fun r hr => ?_, by decide⟩
  simp [decodeSamplerateCheck, not_le.mpr hr]

/-- C9 witness: a 1 MHz sample rate passes the check. -/
theorem C9_samplerate_check_witness :
    0 < (1000000 : ℚ) ∧ decodeSamplerateCheck (some 1000000) = none :=
  ⟨by norm_num, C9_samplerate_check.2.2.1 1000000 (by norm_num)⟩

/-- C7: a completed packet of fewer than 3 bytes produces exactly one
Error annotation ('Paket too short') spanning the whole packet, and the
decoder returns without emitting anything else — no data, command,
checksum or search annotations. -/
theorem C7_short_packet (cfg : DecCfg) (pkt : List ByteRec)
    (h1 : 1 ≤ pkt.length) (h3 : pkt.length < 3) :
    handleDecodedBytes cfg pkt =
      ⟨[putPBs pkt 0 (pkt.length - 1) .error
          ["Paket too short: " ++ toString pkt.length ++ " Byte only", "Error", "E"]], .ret⟩ := by
  unfold handleDecodedBytes
  rw [if_neg (by omega), if_pos h3]

/-- C7 witness at the 2-byte packet `[0xFF, 0x00]`. -/
theorem C7_short_packet_witness :
    1 ≤ (mkPkt [255, 0]).length ∧ (mkPkt [255, 0]).length < 3
    ∧ handleDecodedBytes cfg0 (mkPkt [255, 0]) =
        ⟨[putPBs (mkPkt [255, 0]) 0 ((mkPkt [255, 0]).length - 1) .error
            ["Paket too short: " ++ toString (mkPkt [255, 0]).length ++ " Byte only",
             "Error", "E"]], .ret⟩ :=
  ⟨by decide, by decide, C7_short_packet cfg0 (mkPkt [255, 0]) (by decide) (by decide)⟩


/-- Fold XOR with an arbitrary accumulator. -/
theorem foldl_xor_init (a : Nat) (l : List Nat) :
    l.foldl (fun x b => x ^^^ b) a = a ^^^ l.foldl (fun x b => x ^^^ b) 0 := by
  induction l generalizing a with
  | nil => simp
  | cons h t ih =>
    simp only [List.foldl_cons]
    rw [ih (a ^^^ h), ih (0 ^^^ h), Nat.zero_xor, Nat.xor_assoc]

/-- Checksum of a non-trivial packet, head-first. -/
theorem checksumOf_cons (x : ByteRec) (t : List ByteRec) (ht : t ≠ []) :
    checksumOf (x :: t) = x.value ^^^ checksumOf t := by
  have hm : t.map ByteRec.value ≠ [] := by simpa using ht
  simp only [checksumOf, List.map_cons, List.dropLast_cons_of_ne_nil hm, List.foldl_cons,
    Nat.zero_xor]
  exact foldl_xor_init x.value _

/-- `flipPkt` on a tail position. -/
theorem flipPkt_cons_succ (x : ByteRec) (t : List ByteRec) (j k : Nat) :
    flipPkt (x :: t) (j+1) k = x :: flipPkt t j k := by
  simp [flipPkt]

/-- `flipPkt` preserves length. -/
theorem flipPkt_length (pkt : List ByteRec) (i k : Nat) :
    (flipPkt pkt i k).length = pkt.length := by
  simp [flipPkt]

/-- Flipping bit `k` of a non-final byte XORs `2^k` into the checksum. -/
theorem checksumOf_flip (pkt : List ByteRec) (i k : Nat) (h : i + 1 < pkt.length) :
    checksumOf (flipPkt pkt i k) = checksumOf pkt ^^^ (1 <<< k) := by
  induction pkt generalizing i with
  | nil => simp at h
  | cons x t ih =>
    cases i with
    | zero =>
      have ht : t ≠ [] := by
        intro he; rw [he] at h; simp at h
      have : flipPkt (x :: t) 0 k = ⟨x.value ^^^ (1 <<< k), x.bitPos⟩ :: t := by
        simp [flipPkt]
      rw [this, checksumOf_cons _ _ ht, checksumOf_cons _ _ ht]
      show (x.value ^^^ (1 <<< k)) ^^^ checksumOf t = (x.value ^^^ checksumOf t) ^^^ (1 <<< k)
      rw [Nat.xor_assoc, Nat.xor_assoc, Nat.xor_comm (1 <<< k)]
    | succ j =>
      have hj : j + 1 < t.length := by simp at h; omega
      have ht : t ≠ [] := by
        intro he; rw [he] at hj; simp at hj
      have htf : flipPkt t j k ≠ [] := by
        intro he
        have := flipPkt_length t j k
        rw [he] at this
        simp at this
        omega
      rw [flipPkt_cons_succ, checksumOf_cons _ _ htf, checksumOf_cons _ _ ht, ih j hj,
        Nat.xor_assoc]

/-- Flipping one byte leaves the others unchanged. -/
theorem bv_flip_ne (pkt : List ByteRec) (i k j : Nat) (hij : i ≠ j) :
    bv (flipPkt pkt i k) j = bv pkt j := by
  simp only [bv, flipPkt, List.getD_eq_getElem?_getD, List.getElem?_set_ne hij]

/-- XOR with a nonzero single-bit mask changes the value. -/
theorem xor_shift_ne (a k : Nat) : a ^^^ (1 <<< k) ≠ a := by
  intro h
  have h2 : a ^^^ (a ^^^ (1 <<< k)) = a ^^^ a := congrArg (a ^^^ ·) h
  rw [← Nat.xor_assoc, Nat.xor_self, Nat.zero_xor] at h2
  rw [Nat.one_shiftLeft] at h2
  exact (Nat.two_pow_pos k).ne' h2

/-- When field decoding falls through normally, the decoder output is the
field annotations followed by the remaining-bytes, checksum and search
annotations. -/
theorem handleDecodedBytes_ok_anns (cfg : DecCfg) (pkt : List ByteRec)
    (pos : Nat) (valid : Bool) (dec_addr acc_addr cv_addr : Int) (ct : CT)
    (hlen : 3 ≤ pkt.length)
    (hfin : (fieldsPhase cfg pkt).fin = .ok pos valid dec_addr acc_addr cv_addr ct) :
    (handleDecodedBytes cfg pkt).anns
      = (fieldsPhase cfg pkt).anns ++ remainingPhase cfg pkt pos valid
        ++ checksumPhase pkt pos ++ searchPhase cfg pkt dec_addr acc_addr cv_addr ct := by
  unfold handleDecodedBytes
  rw [if_neg (by omega), if_neg (by omega)]
  split <;> simp_all

/-- The checksum check on a matching packet emits exactly the OK frame. -/
theorem checksumPhase_ok (pkt : List ByteRec) (pos : Nat) (hpos : pos + 1 < pkt.length)
    (hok : bv pkt (pkt.length - 1) = checksumOf pkt) :
    checksumPhase pkt pos = [putPB pkt (pkt.length - 1) .frame ["Checksum: OK", "OK"]] := by
  unfold checksumPhase
  rw [if_pos hpos, if_pos hok.symm]

/-- The checksum check on a mismatch emits exactly the Error and the
mismatch frame. -/
theorem checksumPhase_bad (pkt : List ByteRec) (pos : Nat) (hpos : pos + 1 < pkt.length)
    (hbad : bv pkt (pkt.length - 1) ≠ checksumOf pkt) :
    checksumPhase pkt pos
      = [putPBs pkt 0 (pkt.length - 1) .error ["Checksum", "Error", "E"],
         putPB pkt (pkt.length - 1) .frameOther
           ["Checksum: " ++ pyHex (checksumOf pkt) ++ "<>" ++ pyHex (bv pkt (pkt.length - 1)),
            pyHex (checksumOf pkt) ++ "<>" ++ pyHex (bv pkt (pkt.length - 1))]] := by
  unfold checksumPhase
  rw [if_pos hpos, if_neg (fun he => hbad he.symm)]

/-- C1 (amended): for every packet of at least 3 bytes whose field
decoding falls through normally with the final byte unconsumed
(`pos + 1 < n`), a final byte equal to the XOR of all preceding bytes
yields the Frame annotation 'Checksum: OK' on the final byte and the
checksum check emits no Error annotation; flipping any single bit of any
byte other than the last makes the stored checksum differ from the
recomputed XOR, and the checksum-mismatch Error annotation spanning the
packet is emitted provided the flipped packet's field decoding again
falls through with the final byte unconsumed (otherwise decoding aborts
before the check, as the counterexample shows). -/
theorem C1_checksum_roundtrip (cfg : DecCfg) (pkt : List ByteRec)
    (pos : Nat) (valid : Bool) (dec_addr acc_addr cv_addr : Int) (ct : CT)
    (hlen : 3 ≤ pkt.length)
    (hfin : (fieldsPhase cfg pkt).fin = .ok pos valid dec_addr acc_addr cv_addr ct)
    (hpos : pos + 1 < pkt.length)
    (hok : bv pkt (pkt.length - 1) = checksumOf pkt) :
    (putPB pkt (pkt.length - 1) .frame ["Checksum: OK", "OK"] ∈ (handleDecodedBytes cfg pkt).anns
      ∧ checksumPhase pkt pos = [putPB pkt (pkt.length - 1) .frame ["Checksum: OK", "OK"]])
    ∧ ∀ i k, i + 1 < pkt.length → k < 8 →
        (bv (flipPkt pkt i k) ((flipPkt pkt i k).length - 1) ≠ checksumOf (flipPkt pkt i k)
         ∧ ∀ pos2 valid2 dec2 acc2 cv2 ct2,
            (fieldsPhase cfg (flipPkt pkt i k)).fin = .ok pos2 valid2 dec2 acc2 cv2 ct2 →
            pos2 + 1 < pkt.length →
            putPBs (flipPkt pkt i k) 0 ((flipPkt pkt i k).length - 1) .error
                ["Checksum", "Error", "E"]
              ∈ (handleDecodedBytes cfg (flipPkt pkt i k)).anns) := by
  constructor
  · have hdec := handleDecodedBytes_ok_anns cfg pkt pos valid dec_addr acc_addr cv_addr ct hlen hfin
    have hcs := checksumPhase_ok pkt pos hpos hok
    refine ⟨?_, hcs⟩
    rw [hdec, hcs]
    simp [List.mem_append]
  · intro i k hik _hk
    have hflen := flipPkt_length pkt i k
    have hne : bv (flipPkt pkt i k) ((flipPkt pkt i k).length - 1)
        ≠ checksumOf (flipPkt pkt i k) := by
      rw [hflen, bv_flip_ne pkt i k _ (by omega), checksumOf_flip pkt i k (by omega), hok]
      exact fun he => xor_shift_ne (checksumOf pkt) k he.symm
    refine ⟨hne, ?_⟩
    intro pos2 valid2 dec2 acc2 cv2 ct2 hfin2 hpos2
    have hdec2 := handleDecodedBytes_ok_anns cfg (flipPkt pkt i k) pos2 valid2 dec2 acc2 cv2 ct2
      (by omega) hfin2
    have hcs2 := checksumPhase_bad (flipPkt pkt i k) pos2 (by omega) hne
    rw [hdec2, hcs2]
    simp [List.mem_append]

/-- C1 counterexample: the valid 3-byte packet `[0x01, 0xE4, 0xE5]` gets
'Checksum: OK', but flipping bit 4 of byte 1 (0xE4 → 0xF4) turns it into
a truncated CV#17/18 write whose decoding aborts on the missing byte:
neither the checksum-mismatch Error nor any checksum annotation is
emitted for the flipped packet, contrary to the claim. -/
theorem C1_counterexample :
    bv pktC1 2 = checksumOf pktC1
    ∧ pktC1flip = flipPkt pktC1 1 4
    ∧ putPB pktC1 2 .frame ["Checksum: OK", "OK"] ∈ (handleDecodedBytes cfg0 pktC1).anns
    ∧ (∀ a ∈ (handleDecodedBytes cfg0 pktC1flip).anns, a.labels ≠ ["Checksum", "Error", "E"])
    ∧ (∀ a ∈ (handleDecodedBytes cfg0 pktC1flip).anns, a.labels ≠ ["Checksum: OK", "OK"]) := by
  refine ⟨by decide, by decide, by decide, by decide, by decide⟩

/-- C1 witness at `[0x01, 0xE4, 0xE5]`. -/
theorem C1_checksum_roundtrip_witness :
    3 ≤ pktC1.length
    ∧ (fieldsPhase cfg0 pktC1).fin
        = .ok 1 false 1 (-1) (-1)
            ⟨"Multi Function Decoder with 7 bit address", "Decoder with 7 bit address",
             "7 bit addr.", "", "", ""⟩
    ∧ 1 + 1 < pktC1.length
    ∧ bv pktC1 (pktC1.length - 1) = checksumOf pktC1
    ∧ (putPB pktC1 (pktC1.length - 1) .frame ["Checksum: OK", "OK"]
          ∈ (handleDecodedBytes cfg0 pktC1).anns
        ∧ checksumPhase pktC1 1
            = [putPB pktC1 (pktC1.length - 1) .frame ["Checksum: OK", "OK"]]) :=
  ⟨by decide, by decide, by decide, by decide,
   (C1_checksum_roundtrip cfg0 pktC1 1 false 1 (-1) (-1)
      ⟨"Multi Function Decoder with 7 bit address", "Decoder with 7 bit address",
       "7 bit addr.", "", "", ""⟩
      (by decide) (by decide) (by decide) (by decide)).1⟩

/-- C5 (amended): the search phase runs only when field decoding completes
normally, and the byte-search loop combines the set address/CV criteria
with logical OR, not AND: a `SearchByte` annotation appears for position
`x` iff the byte there matches `byte_search` and either no address/CV
criterion is set or at least one of the extracted addresses matches its
criterion.  With `Search_byte = 0xFF` and no other criterion set, the
search phase is exactly one `SearchByte` annotation (spanning the byte)
per occurrence of 0xFF in the packet. -/
theorem C5_search_byte (cfg : DecCfg) (pkt : List ByteRec)
    (pos : Nat) (valid : Bool) (dec_addr acc_addr cv_addr : Int) (ct : CT)
    (hlen : 3 ≤ pkt.length)
    (hfin : (fieldsPhase cfg pkt).fin = .ok pos valid dec_addr acc_addr cv_addr ct) :
    ((handleDecodedBytes cfg pkt).anns
        = (fieldsPhase cfg pkt).anns ++ remainingPhase cfg pkt pos valid
          ++ checksumPhase pkt pos ++ searchPhase cfg pkt dec_addr acc_addr cv_addr ct)
    ∧ (∀ a, a ∈ searchByteAnns cfg pkt dec_addr acc_addr cv_addr ↔
        ∃ x, x < pkt.length
          ∧ cfg.byte_search = Int.ofNat (bv pkt x)
          ∧ ((cfg.dec_addr_search < 0 ∧ cfg.acc_addr_search < 0 ∧ cfg.cv_addr_search < 0)
             ∨ dec_addr = cfg.dec_addr_search ∨ acc_addr = cfg.acc_addr_search
             ∨ cv_addr = cfg.cv_addr_search)
          ∧ a = putPB pkt x .searchByte
              ["BYTE:" ++ pyHexI cfg.byte_search ++ "/" ++ toString cfg.byte_search])
    ∧ (cfg.byte_search = 255 → cfg.dec_addr_search = -255 → cfg.acc_addr_search = -255 →
       cfg.cv_addr_search = -255 → cfg.command_search = "" →
       dec_addr ≠ -255 → acc_addr ≠ -255 → cv_addr ≠ -255 →
       searchPhase cfg pkt dec_addr acc_addr cv_addr ct
         = (List.range pkt.length).filterMap fun x =>
             if bv pkt x = 255 then
               some (putPB pkt x .searchByte ["BYTE:0xff/255"])
             else none) := by
  refine ⟨handleDecodedBytes_ok_anns cfg pkt pos valid dec_addr acc_addr cv_addr ct hlen hfin,
    ?_, ?_⟩
  · intro a
    unfold searchByteAnns
    rw [List.mem_filterMap]
    constructor
    · rintro ⟨x, hx, hfx⟩
      rw [List.mem_range] at hx
      split at hfx
      · rename_i hcond
        injection hfx with hfx
        exact ⟨x, hx, hcond.1, hcond.2, hfx.symm⟩
      · cases hfx
    · rintro ⟨x, hx, h1, h2, rfl⟩
      exact ⟨x, List.mem_range.mpr hx, by rw [if_pos ⟨h1, h2⟩]⟩
  · intro hb hd ha hc hcm hd2 ha2 hc2
    have hlabel : "BYTE:" ++ pyHexI (255 : Int) ++ "/" ++ toString (255 : Int)
        = "BYTE:0xff/255" := by decide
    have h1 : ¬(cfg.dec_addr_search = dec_addr
        ∧ (cfg.byte_search < 0 ∨ byteFound cfg pkt = true)) := by
      rintro ⟨h, -⟩; exact hd2 (h.symm.trans hd)
    have h2 : ¬(cfg.acc_addr_search = acc_addr
        ∧ (cfg.byte_search < 0 ∨ byteFound cfg pkt = true)) := by
      rintro ⟨h, -⟩; exact ha2 (h.symm.trans ha)
    have h3 : ¬(cfg.cv_addr_search = cv_addr
        ∧ (cfg.byte_search < 0 ∨ byteFound cfg pkt = true)) := by
      rintro ⟨h, -⟩; exact hc2 (h.symm.trans hc)
    have h4 : ¬(cfg.command_search ≠ ""
        ∧ (pyIn (pyLower cfg.command_search) (pyLower ct.t1) = true
           ∨ pyIn (pyLower cfg.command_search) (pyLower ct.t2) = true
           ∨ pyIn (pyLower cfg.command_search) (pyLower ct.t3) = true
           ∨ pyIn (pyLower cfg.command_search) (pyLower ct.t4) = true
           ∨ pyIn (pyLower cfg.command_search) (pyLower ct.t5) = true
           ∨ pyIn (pyLower cfg.command_search) (pyLower ct.t6) = true)) := by
      rintro ⟨h, -⟩; exact h hcm
    simp only [searchPhase, if_neg h1, if_neg h2, if_neg h3, if_neg h4, List.append_nil]
    unfold searchByteAnns
    congr 1
    funext x
    rw [hb, hd, ha, hc, hlabel]
    have hcond : ((255 : Int) = Int.ofNat (bv pkt x)
        ∧ (((-255 : Int) < 0 ∧ (-255 : Int) < 0 ∧ (-255 : Int) < 0)
           ∨ dec_addr = -255 ∨ acc_addr = -255 ∨ cv_addr = -255))
        ↔ bv pkt x = 255 := by
      constructor
      · rintro ⟨h, -⟩; exact Int.ofNat.inj h.symm
      · intro h; exact ⟨by rw [h]; rfl, Or.inl ⟨by norm_num, by norm_num, by norm_num⟩⟩
    exact if_congr hcond rfl rfl

/-- C5 counterexample: with byte search 0xFF, decoder-address search 5 and
CV search 7 all set, the packet 0x05 0xFF 0xFA (decoder address 5, no CV
access, extracted CV address −1 ≠ 7) still receives a `SearchByte`
annotation on its 0xFF byte: the set criteria combine with OR, not the
claimed AND. -/
theorem C5_counterexample :
    cfg5.byte_search = 255 ∧ cfg5.dec_addr_search = 5 ∧ cfg5.cv_addr_search = 7
    ∧ (fieldsPhase cfg5 pktC5).fin
        = .ok 1 false 5 (-1) (-1)
            ⟨"Configuration Variable Access Instruction - Short Form",
             "CV Access Instruction short", "CV short", "", "", ""⟩
    ∧ ((handleDecodedBytes cfg5 pktC5).anns.filter fun a => a.cls == AnnClass.searchByte)
        = [putPB pktC5 1 .searchByte ["BYTE:0xff/255"]] :=
  ⟨rfl, rfl, rfl, by decide, by decide⟩

/-- C5 witness: the Idle packet 0xFF 0x00 0xFF under a byte search for
0xFF with no other criteria: its field decoding completes with all
extracted addresses −1, and the search phase is exactly one `SearchByte`
annotation per occurrence of 0xFF. -/
theorem C5_search_byte_witness :
    (3 ≤ pktC5w.length)
    ∧ ((fieldsPhase cfgB pktC5w).fin
        = .ok 1 false (-1) (-1) (-1) ⟨"Idle", "", "", "", "", ""⟩)
    ∧ searchPhase cfgB pktC5w (-1) (-1) (-1) ⟨"Idle", "", "", "", "", ""⟩
        = (List.range pktC5w.length).filterMap fun x =>
            if bv pktC5w x = 255 then
              some (putPB pktC5w x .searchByte ["BYTE:0xff/255"])
            else none := by
  refine ⟨by decide, by decide, ?_⟩
  exact (C5_search_byte cfgB pktC5w 1 false (-1) (-1) (-1) ⟨"Idle", "", "", "", "", ""⟩
    (by decide) (by decide)).2.2 rfl rfl rfl rfl rfl (by decide) (by decide) (by decide)


/-- At a 1 MHz sample rate the edge-pair duration in µs is the sample
difference. -/
theorem usOf_mhz (cfg : DecCfg) (hs : cfg.samplerate = 1000000) (a b : Nat) :
    usOf cfg a b = (b : ℚ) - (a : ℚ) := by
  rw [usOf, hs, div_mul_cancel₀ _ (show (1000000 : ℚ) ≠ 0 by norm_num)]

/-- One half-1 step of the synchronizer loop. -/
theorem syncRun_half1_step (cfg : DecCfg) (st : DecSt) (e1 e2 e3 : Nat) (rest : List Nat)
    (hst : st.dccStatus = .SYNCRONIZESIGNAL)
    (h1 : isHalf1Bit cfg (usOf cfg e1 e2) = true) :
    syncRun cfg st e1 e2 (e3 :: rest)
      = ((syncRun cfg { st with half1Counter := st.half1Counter + 1 } e2 e3 rest).1,
         (half1Step cfg st e1 e2).2
           ++ (syncRun cfg { st with half1Counter := st.half1Counter + 1 } e2 e3 rest).2) := by
  cases rest with
  | nil =>
    conv_lhs => rw [syncRun]
    simp only [half1Step, hst, ne_eq, eq_self_iff_true, not_true, if_false, ite_false, h1,
      if_true, ite_true]
  | cons e4 rest =>
    conv_lhs => rw [syncRun]
    simp only [half1Step, hst, ne_eq, eq_self_iff_true, not_true, if_false, ite_false, h1,
      if_true, ite_true]

/-- The promoting 0-bit step: with the half-1 counter at or above twice
the minimum preamble-bit count, a non-half-1 interval completing a valid
0-bit promotes the synchronizer to PREAMBLEFOUND with no annotation. -/
theorem syncRun_preambleFound (cfg : DecCfg) (st : DecSt) (e1 z1 z2 : Nat) (rest : List Nat)
    (hst : st.dccStatus = .SYNCRONIZESIGNAL)
    (hz1 : isHalf1Bit cfg (usOf cfg e1 z1) = false)
    (hz0 : is0Bit cfg (usOf cfg e1 z1) (usOf cfg z1 z2) = true)
    (hge : cfg.minCountPreambleBits * 2 ≤ st.half1Counter) :
    syncRun cfg st e1 z1 (z2 :: rest) = (preambleFoundStep st, []) := by
  cases rest with
  | nil =>
    conv_lhs => rw [syncRun]
    simp only [hst, ne_eq, eq_self_iff_true, not_true, if_false, ite_false, hz1,
      Bool.false_eq_true, hz0, if_true, ite_true, hge]
  | cons e4 rest =>
    conv_lhs => rw [syncRun]
    simp only [hst, ne_eq, eq_self_iff_true, not_true, if_false, ite_false, hz1,
      Bool.false_eq_true, hz0, if_true, ite_true, hge]

/-- The restarting 0-bit step at the end of the edge stream: with the
half-1 counter below twice the minimum preamble-bit count, a valid 0-bit
resets the counter and leaves the state in SYNCRONIZESIGNAL. -/
theorem syncRun_tooFew (cfg : DecCfg) (st : DecSt) (e1 z1 z2 : Nat)
    (hst : st.dccStatus = .SYNCRONIZESIGNAL)
    (hz1 : isHalf1Bit cfg (usOf cfg e1 z1) = false)
    (hz0 : is0Bit cfg (usOf cfg e1 z1) (usOf cfg z1 z2) = true)
    (hlt : st.half1Counter < cfg.minCountPreambleBits * 2) :
    syncRun cfg st e1 z1 [z2] = zeroRestart cfg st e1 z1 z2 := by
  conv_lhs => rw [syncRun]
  simp only [hst, ne_eq, eq_self_iff_true, not_true, if_false, ite_false, hz1,
    Bool.false_eq_true, hz0, if_true, ite_true, Nat.not_le.mpr hlt]

/-- The two half-1 annotations carry the BITS_OTHER and FRAME_OTHER
classes. -/
theorem half1Step_cls (cfg : DecCfg) (st : DecSt) (e1 e2 : Nat) :
    ∀ a ∈ (half1Step cfg st e1 e2).2, a.cls = .bitsOther ∨ a.cls = .frameOther := by
  intro a ha
  rcases List.mem_cons.mp ha with rfl | ha
  · exact Or.inl rfl
  · rcases List.mem_singleton.mp ha with rfl
    exact Or.inr rfl

/-- Consuming a chain of half-1 intervals bumps the half-1 counter by the
chain length and emits only BITS_OTHER / FRAME_OTHER annotations; the run
continues at the last chain edge. -/
theorem syncRun_half1_chain (cfg : DecCfg) (hs : List Nat) (z : Nat) (rest : List Nat) :
    ∀ (st : DecSt) (e1 e2 : Nat), st.dccStatus = .SYNCRONIZESIGNAL →
      chainHalf1 cfg e1 (e2 :: hs) →
      ∃ anns : List Ann,
        (∀ a ∈ anns, a.cls = .bitsOther ∨ a.cls = .frameOther)
        ∧ syncRun cfg st e1 e2 (hs ++ z :: rest)
            = ((syncRun cfg { st with half1Counter := st.half1Counter + (hs.length + 1) }
                  (lastD e2 hs) z rest).1,
               anns ++ (syncRun cfg
                  { st with half1Counter := st.half1Counter + (hs.length + 1) }
                  (lastD e2 hs) z rest).2) := by
  induction hs with
  | nil =>
    intro st e1 e2 hst hch
    obtain ⟨h1, -⟩ := hch
    exact ⟨(half1Step cfg st e1 e2).2, half1Step_cls cfg st e1 e2,
      syncRun_half1_step cfg st e1 e2 z rest hst h1⟩
  | cons h hs ih =>
    intro st e1 e2 hst hch
    obtain ⟨h1, hch'⟩ := hch
    obtain ⟨anns', hcls, heq⟩ := ih { st with half1Counter := st.half1Counter + 1 } e2 h hst hch'
    refine ⟨(half1Step cfg st e1 e2).2 ++ anns', ?_, ?_⟩
    · intro a ha
      rcases List.mem_append.mp ha with ha | ha
      · exact half1Step_cls cfg st e1 e2 a ha
      · exact hcls a ha
    · have hstate : ({ st with half1Counter := st.half1Counter + 1 } : DecSt).half1Counter
          + (hs.length + 1) = st.half1Counter + ((h :: hs).length + 1) := by
        show st.half1Counter + 1 + (hs.length + 1) = st.half1Counter + ((h :: hs).length + 1)
        simp [List.length_cons]
        omega
      rw [hstate] at heq
      have hlast : lastD e2 (h :: hs) = lastD h hs := List.getLastD_cons e2 h hs
      rw [List.cons_append, syncRun_half1_step cfg st e1 e2 h (hs ++ z :: rest) hst h1, heq,
        hlast]
      simp [List.append_assoc]

/-- C2 (amended): in the SYNCRONIZESIGNAL state, starting with a zero
half-1 counter, consuming a chain of half-1 intervals followed by a valid
0-bit: if the chain has at least `minCountPreambleBits * 2` half-1
intervals (twice the claim's count: the counter counts half bits), the
state machine transitions to PREAMBLEFOUND; with fewer intervals it stays
in SYNCRONIZESIGNAL with the counter restarted at 0, and the annotations
emitted are BITS_OTHER / FRAME_OTHER only — the 'too few half 1 bits' restart marker carries the FRAME_OTHER class, and no Error
annotation is emitted in either outcome. -/
theorem C2_synchronize (cfg : DecCfg) (st : DecSt) (e1 e2 : Nat) (hs : List Nat)
    (z1 z2 : Nat) (rest : List Nat)
    (hst : st.dccStatus = .SYNCRONIZESIGNAL) (h0 : st.half1Counter = 0)
    (hch : chainHalf1 cfg e1 (e2 :: hs))
    (hz1 : isHalf1Bit cfg (usOf cfg (lastD e2 hs) z1) = false)
    (hz0 : is0Bit cfg (usOf cfg (lastD e2 hs) z1) (usOf cfg z1 z2) = true) :
    (cfg.minCountPreambleBits * 2 ≤ hs.length + 1 →
       (syncRun cfg st e1 e2 (hs ++ z1 :: z2 :: rest)).1.dccStatus = .PREAMBLEFOUND
       ∧ ∀ a ∈ (syncRun cfg st e1 e2 (hs ++ z1 :: z2 :: rest)).2,
           a.cls = .bitsOther ∨ a.cls = .frameOther)
    ∧ (hs.length + 1 < cfg.minCountPreambleBits * 2 →
       (syncRun cfg st e1 e2 (hs ++ [z1, z2])).1.dccStatus = .SYNCRONIZESIGNAL
       ∧ (syncRun cfg st e1 e2 (hs ++ [z1, z2])).1.half1Counter = 0
       ∧ (∀ a ∈ (syncRun cfg st e1 e2 (hs ++ [z1, z2])).2,
            a.cls = .bitsOther ∨ a.cls = .frameOther)
       ∧ putX (lastD e2 hs) z2 .frameOther
           ["Synchronize (wait for preamble) (too few half 1 bits ("
              ++ toString (hs.length + 1) ++ "/min"
              ++ toString (cfg.minCountPreambleBits * 2) ++ "))",
            "Synchronize", "Sync.", "S"] ∈ (syncRun cfg st e1 e2 (hs ++ [z1, z2])).2) := by
  obtain ⟨annsA, hclsA, heqA⟩ := syncRun_half1_chain cfg hs z1 (z2 :: rest) st e1 e2 hst hch
  obtain ⟨annsB, hclsB, heqB⟩ := syncRun_half1_chain cfg hs z1 [z2] st e1 e2 hst hch
  constructor
  · intro hge
    have hstep := syncRun_preambleFound cfg
      { st with half1Counter := st.half1Counter + (hs.length + 1) } (lastD e2 hs) z1 z2 rest
      hst hz1 hz0
      (by show cfg.minCountPreambleBits * 2 ≤ st.half1Counter + (hs.length + 1); omega)
    rw [heqA, hstep]
    refine ⟨by simp [preambleFoundStep, setNextStatus], ?_⟩
    intro a ha
    exact hclsA a (by simpa using ha)
  · intro hlt
    have hne : ({ st with half1Counter := st.half1Counter + (hs.length + 1) } : DecSt).half1Counter
        ≠ 0 := by
      show st.half1Counter + (hs.length + 1) ≠ 0; omega
    have hstep := syncRun_tooFew cfg
      { st with half1Counter := st.half1Counter + (hs.length + 1) } (lastD e2 hs) z1 z2
      hst hz1 hz0
      (by show st.half1Counter + (hs.length + 1) < cfg.minCountPreambleBits * 2; omega)
    rw [heqB, hstep]
    refine ⟨by simp [zeroRestart, hst], by simp [zeroRestart], ?_, ?_⟩
    · intro a ha
      rcases List.mem_append.mp ha with ha | ha
      · exact hclsB a ha
      · simp only [zeroRestart, hne, if_false, ite_false] at ha
        rcases List.mem_cons.mp ha with rfl | ha
        · exact Or.inl rfl
        · rcases List.mem_singleton.mp ha with rfl
          exact Or.inr rfl
    · rw [List.mem_append]
      right
      simp only [zeroRestart, hne, if_false, ite_false, h0, Nat.zero_add]
      exact List.mem_cons_of_mem _ (List.mem_singleton.mpr rfl)

/-- C2 counterexample: with the minimum preamble-bit count set to 1, a
run of exactly one half-1 interval (the claim's `minCountPreambleBits`
count) followed by a valid 0-bit does not promote the synchronizer to
PREAMBLEFOUND — the code demands `minCountPreambleBits * 2` half-1
intervals — and the restart emits no Error annotation (the restart
marker is FRAME_OTHER), refuting both halves of the claim as stated. -/
theorem C2_counterexample :
    cfgM.minCountPreambleBits = 1
    ∧ isHalf1Bit cfgM (usOf cfgM 0 58) = true
    ∧ isHalf1Bit cfgM (usOf cfgM 58 158) = false
    ∧ is0Bit cfgM (usOf cfgM 58 158) (usOf cfgM 158 258) = true
    ∧ (syncRun cfgM st0 0 58 [158, 258]).1.dccStatus = .SYNCRONIZESIGNAL
    ∧ ∀ a ∈ (syncRun cfgM st0 0 58 [158, 258]).2, a.cls ≠ .error := by
  have husOf := usOf_mhz cfgM rfl
  have h1 : isHalf1Bit cfgM (usOf cfgM 0 58) = true := by
    rw [husOf]; norm_num [isHalf1Bit, cfgM, cfg0, timing]
  have h2 : isHalf1Bit cfgM (usOf cfgM 58 158) = false := by
    rw [husOf]; norm_num [isHalf1Bit, cfgM, cfg0, timing]
  have h3 : is0Bit cfgM (usOf cfgM 58 158) (usOf cfgM 158 258) = true := by
    rw [husOf, husOf]
    norm_num [is0Bit, withoutStrechedZero, withStrechedZero, cfgM, cfg0, timing,
      timingNMRAdecoder, timingNMRAcompliance, timingRCNdecoder, timingRCNcomplianceT,
      timingRCNcomplianceS, timingExperimental, BIT0MAXSTRECHEDTOTAL]
  have hrun : syncRun cfgM st0 0 58 [158, 258]
      = ((zeroRestart cfgM { st0 with half1Counter := st0.half1Counter + 1 } 58 158 258).1,
         (half1Step cfgM st0 0 58).2
           ++ (zeroRestart cfgM { st0 with half1Counter := st0.half1Counter + 1 } 58 158 258).2) := by
    rw [syncRun_half1_step cfgM st0 0 58 158 [258] rfl h1,
      syncRun_tooFew cfgM { st0 with half1Counter := st0.half1Counter + 1 } 58 158 258
        rfl h2 h3 (by decide)]
  refine ⟨rfl, h1, h2, h3, by rw [hrun]; rfl, ?_⟩
  rw [hrun]
  decide

/-- C2 witness: at the default minimum preamble count 10, a run of 20
half-1 intervals of 58 µs followed by a valid 0-bit (100 µs + 100 µs)
promotes the synchronizer from SYNCRONIZESIGNAL to PREAMBLEFOUND. -/
theorem C2_synchronize_witness :
    st0.dccStatus = .SYNCRONIZESIGNAL
    ∧ st0.half1Counter = 0
    ∧ chainHalf1 cfg0 0 (58 :: edges20)
    ∧ isHalf1Bit cfg0 (usOf cfg0 (lastD 58 edges20) 1260) = false
    ∧ is0Bit cfg0 (usOf cfg0 (lastD 58 edges20) 1260) (usOf cfg0 1260 1360) = true
    ∧ cfg0.minCountPreambleBits * 2 ≤ edges20.length + 1
    ∧ (syncRun cfg0 st0 0 58 (edges20 ++ [1260, 1360])).1.dccStatus = .PREAMBLEFOUND := by
  have husOf := usOf_mhz cfg0 rfl
  have h58 : isHalf1Bit cfg0 58 = true := by norm_num [isHalf1Bit, cfg0, timing]
  have hch : chainHalf1 cfg0 0 (58 :: edges20) := by
    norm_num [chainHalf1, edges20, husOf, h58]
  have hlastv : lastD 58 edges20 = 1160 := by decide
  have hz1 : isHalf1Bit cfg0 (usOf cfg0 (lastD 58 edges20) 1260) = false := by
    rw [hlastv, husOf]; norm_num [isHalf1Bit, cfg0, timing]
  have hz0 : is0Bit cfg0 (usOf cfg0 (lastD 58 edges20) 1260) (usOf cfg0 1260 1360) = true := by
    rw [hlastv, husOf, husOf]
    norm_num [is0Bit, withoutStrechedZero, withStrechedZero, cfg0, timing,
      timingNMRAdecoder, timingNMRAcompliance, timingRCNdecoder, timingRCNcomplianceT,
      timingRCNcomplianceS, timingExperimental, BIT0MAXSTRECHEDTOTAL]
  refine ⟨rfl, rfl, hch, hz1, hz0, by decide, ?_⟩
  exact ((C2_synchronize cfg0 st0 0 58 edges20 1260 1360 [] rfl rfl hch hz1 hz0).1
    (by decide)).1

end Dcc
